/-
Verification of the `infra_alerts` run-orchestration and alert-lifecycle
engine (`src/infra_alerts/run_monitor.py`, `state.py`, `monitors/status.py`,
`digest.py`).

Modelling conventions:
* A Python `datetime` (always UTC-aware in this code base) is modelled as the
  number of microseconds since the Unix epoch, an `Int` (`DT`).  `timedelta`
  values are likewise microsecond counts.  Subtraction, comparison and
  addition of datetimes are then plain integer operations, which coincides
  with Python's calendar-aware semantics for UTC datetimes.
* `datetime.isoformat` is reimplemented over this representation through the
  proleptic Gregorian calendar (`civilFromDays`), matching CPython's output
  for valid datetimes (year 1..9999).
* `hashlib.sha256(...).hexdigest()` is reimplemented bit-for-bit over the
  UTF-8 bytes of the input, using `Nat` arithmetic modulo 2^32.
* JSON-typed Python dicts that the orchestrator reads through defensive
  accessors (`int(...)`, `bool(...)`, `isinstance` guards with defaults) are
  modelled as typed records whose field types are the post-coercion types;
  iso-formatted timestamp strings held in state are modelled as their parsed
  values (`Option DT`, `none` covering both a missing key and `None`/`""`).
* Network fetches, checker modules other than `status.py`, the Better Stack
  API, the local-timezone conversion and the two delivery channels are
  external collaborators; their outcomes enter the model as explicit oracle
  arguments (an exception is an `Except.error`).
-/
import Mathlib

namespace InfraAlerts

/-! ## Time: microseconds since the Unix epoch -/

abbrev DT := Int

def usPerSecond : Int := 1000000
def usPerMinute : Int := 60000000
def usPerHour : Int := 3600000000
def usPerDay : Int := 86400000000

def minutesUs (m : Int) : Int := m * usPerMinute
def hoursUs (h : Int) : Int := h * usPerHour

/-- `timestamp.replace(second=0, microsecond=0)` on a UTC datetime: floor to
the minute boundary. -/
def truncMin (t : Int) : Int := t - t % usPerMinute

/-! ## Proleptic Gregorian calendar (CPython `datetime` internals) -/

def isLeap (y : Nat) : Bool := (y % 4 == 0 && y % 100 != 0) || y % 400 == 0

def daysInYear (y : Nat) : Nat := if isLeap y then 366 else 365

def daysInMonth (y m : Nat) : Nat :=
  if m = 2 then (if isLeap y then 29 else 28)
  else if m = 4 ∨ m = 6 ∨ m = 9 ∨ m = 11 then 30
  else 31

/-- Days in years `y, y+1, ..., y+count-1`. -/
def yearsDays (y : Nat) : Nat → Nat
  | 0 => 0
  | count + 1 => daysInYear y + yearsDays (y + 1) count

/-- Days from 1 Jan of year `y` to 1 `m` of year `y` (months `1..m-1`). -/
def monthsAcc (y : Nat) : Nat → Nat
  | 0 => 0
  | m + 1 => if m = 0 then 0 else monthsAcc y m + daysInMonth y m

/-- Day number (0-based, counted from 0001-01-01) of the civil date y-m-d. -/
def daysFromCivil (y m d : Nat) : Nat :=
  yearsDays 1 (y - 1) + monthsAcc y m + (d - 1)

/-- Peel whole years off a day count; fuel bounds the recursion. -/
def peelYears : Nat → Nat → Nat → Nat × Nat
  | 0, y, n => (y, n)
  | fuel + 1, y, n =>
      if n < daysInYear y then (y, n) else peelYears fuel (y + 1) (n - daysInYear y)

/-- Peel whole months (of year `y`) off a day-of-year count. -/
def peelMonths (y : Nat) : Nat → Nat → Nat → Nat × Nat
  | 0, m, n => (m, n)
  | fuel + 1, m, n =>
      if n < daysInMonth y m then (m, n) else peelMonths y fuel (m + 1) (n - daysInMonth y m)

/-- Civil date (y, m, d) of 0-based day number `n` counted from 0001-01-01. -/
def civilFromDays (n : Nat) : Nat × Nat × Nat :=
  let yr := peelYears (n + 1) 1 n
  let mr := peelMonths yr.1 12 1 yr.2
  (yr.1, mr.1, mr.2 + 1)

/-- Day number of the Unix epoch 1970-01-01 counted from 0001-01-01. -/
def epochDays : Nat := daysFromCivil 1970 1 1

/-! ## Decimal rendering (zero-padded, as `%0*d`) -/

def digitChar (d : Nat) : Char := Char.ofNat (48 + d)

/-- Zero-padded fixed-width decimal digits of `n` (width `w`). -/
def padDec : Nat → Nat → List Char
  | 0, _ => []
  | w + 1, n => padDec w (n / 10) ++ [digitChar (n % 10)]

def decList (n : Nat) : List Char :=
  if _h : n < 10 then [digitChar n]
  else decList (n / 10) ++ [digitChar (n % 10)]
decreasing_by exact Nat.div_lt_self (by omega) (by omega)

/-- Decimal rendering of a natural number (as Python `str(n)`). -/
def decStr (n : Nat) : String := ⟨decList n⟩

/-! ## `datetime.isoformat` for UTC-aware datetimes -/

/-- The list-of-chars body of `t.isoformat()` for a UTC datetime `t`
(microseconds since epoch).  CPython prints `YYYY-MM-DDTHH:MM:SS`, a
fractional part only when `microsecond != 0`, then the `+00:00` offset. -/
def isoChars (t : DT) : List Char :=
  let total : Int := t + (epochDays : Int) * usPerDay
  let n : Nat := (total / usPerDay).toNat
  let rest : Nat := (total % usPerDay).toNat
  let ymd := civilFromDays n
  let usec := rest % 1000000
  let secs := rest / 1000000
  let ss := secs % 60
  let mins := secs / 60
  let mm := mins % 60
  let hh := mins / 60
  padDec 4 ymd.1 ++ [Char.ofNat 45] ++ padDec 2 ymd.2.1 ++ [Char.ofNat 45] ++ padDec 2 ymd.2.2 ++
    [Char.ofNat 84] ++ padDec 2 hh ++ [Char.ofNat 58] ++ padDec 2 mm ++ [Char.ofNat 58] ++ padDec 2 ss ++
    (if usec = 0 then [] else [Char.ofNat 46] ++ padDec 6 usec) ++
    [Char.ofNat 43, Char.ofNat 48, Char.ofNat 48, Char.ofNat 58, Char.ofNat 48, Char.ofNat 48]

def isoformat (t : DT) : String := ⟨isoChars t⟩

/-- `now.date().isoformat()`: the `YYYY-MM-DD` part only. -/
def dateIso (t : DT) : String :=
  let total : Int := t + (epochDays : Int) * usPerDay
  let ymd := civilFromDays (total / usPerDay).toNat
  ⟨padDec 4 ymd.1 ++ [Char.ofNat 45] ++ padDec 2 ymd.2.1 ++ [Char.ofNat 45] ++ padDec 2 ymd.2.2⟩

/-! ## SHA-256 over `Nat` arithmetic (mod 2^32) -/

def w32 (n : Nat) : Nat := n % 4294967296

def rotr32 (r x : Nat) : Nat := w32 ((x >>> r) ||| (x <<< (32 - r)))

/-- The 64 SHA-256 round constants (fractional parts of the cube roots of
the first 64 primes), written in decimal. -/
def shaK : List Nat :=
  [1116352408, 1899447441, 3049323471, 3921009573, 961987163, 1508970993,
   2453635748, 2870763221, 3624381080, 310598401, 607225278, 1426881987,
   1925078388, 2162078206, 2614888103, 3248222580, 3835390401, 4022224774,
   264347078, 604807628, 770255983, 1249150122, 1555081692, 1996064986,
   2554220882, 2821834349, 2952996808, 3210313671, 3336571891, 3584528711,
   113926993, 338241895, 666307205, 773529912, 1294757372, 1396182291,
   1695183700, 1986661051, 2177026350, 2456956037, 2730485921, 2820302411,
   3259730800, 3345764771, 3516065817, 3600352804, 4094571909, 275423344,
   430227734, 506948616, 659060556, 883997877, 958139571, 1322822218,
   1537002063, 1747873779, 1955562222, 2024104815, 2227730452, 2361852424,
   2428436474, 2756734187, 3204031479, 3329325298]

/-- The initial SHA-256 hash state (fractional parts of the square roots of
the first 8 primes), written in decimal. -/
def shaH0 : List Nat :=
  [1779033703, 3144134277, 1013904242, 2773480762,
   1359893119, 2600822924, 528734635, 1541459225]

/-- Big-endian bytes of `n`, `count` bytes. -/
def beBytes : Nat → Nat → List Nat
  | 0, _ => []
  | c + 1, n => beBytes c (n / 256) ++ [n % 256]

/-- SHA-256 message padding of a byte list. -/
def shaPad (msg : List Nat) : List Nat :=
  let len := msg.length
  let zeros := (64 - ((len + 9) % 64)) % 64
  msg ++ [0x80] ++ List.replicate zeros 0 ++ beBytes 8 (8 * len)

/-- Split into 32-bit big-endian words. -/
def toWords : List Nat → List Nat
  | b0 :: b1 :: b2 :: b3 :: rest => (((b0 * 256 + b1) * 256 + b2) * 256 + b3) :: toWords rest
  | _ => []

def smallSigma0 (x : Nat) : Nat := (rotr32 7 x).xor ((rotr32 18 x).xor (x >>> 3))
def smallSigma1 (x : Nat) : Nat := (rotr32 17 x).xor ((rotr32 19 x).xor (x >>> 10))
def bigSigma0 (x : Nat) : Nat := (rotr32 2 x).xor ((rotr32 13 x).xor (rotr32 22 x))
def bigSigma1 (x : Nat) : Nat := (rotr32 6 x).xor ((rotr32 11 x).xor (rotr32 25 x))

/-- Extend the 16 block words to the 64-entry message schedule. -/
def shaExtend (ws : List Nat) : Nat → List Nat
  | 0 => ws
  | k + 1 =>
      let ws' := shaExtend ws k
      let i := ws'.length
      ws' ++ [w32 (smallSigma1 (ws'.getD (i - 2) 0) + ws'.getD (i - 7) 0 +
        smallSigma0 (ws'.getD (i - 15) 0) + ws'.getD (i - 16) 0)]

/-- One round of the SHA-256 compression function. -/
def shaRound (st : List Nat) (kw : Nat × Nat) : List Nat :=
  let a := st.getD 0 0; let b := st.getD 1 0; let c := st.getD 2 0; let d := st.getD 3 0
  let e := st.getD 4 0; let f := st.getD 5 0; let g := st.getD 6 0; let h := st.getD 7 0
  let ch := (e.land f).xor ((e.xor 0xffffffff).land g)
  let maj := ((a.land b).xor (a.land c)).xor (b.land c)
  let t1 := w32 (h + bigSigma1 e + ch + kw.1 + kw.2)
  let t2 := w32 (bigSigma0 a + maj)
  [w32 (t1 + t2), a, b, c, w32 (d + t1), e, f, g]

/-- Compress one 64-byte block into the running hash state. -/
def shaBlock (hst : List Nat) (block : List Nat) : List Nat :=
  let ws := shaExtend (toWords block) 48
  let st := (shaK.zip ws |>.map (fun p => (p.2, p.1))).foldl shaRound hst
  (hst.zip st).map (fun p => w32 (p.1 + p.2))

def chunk64 : List Nat → List (List Nat)
  | [] => []
  | a :: t => ((a :: t).take 64) :: chunk64 (t.drop 63)
termination_by l => l.length
decreasing_by
  simp only [List.length_drop, List.length_cons]
  omega

def hexDigit (d : Nat) : Char := if d < 10 then Char.ofNat (48 + d) else Char.ofNat (87 + d)

def hexWord : Nat → Nat → List Char
  | 0, _ => []
  | w + 1, n => hexWord w (n / 16) ++ [hexDigit (n % 16)]

/-- UTF-8 bytes of a character. -/
def utf8Char (c : Char) : List Nat :=
  let n := c.toNat
  if n < 0x80 then [n]
  else if n < 0x800 then [0xc0 + n / 64, 0x80 + n % 64]
  else if n < 0x10000 then [0xe0 + n / 4096, 0x80 + (n / 64) % 64, 0x80 + n % 64]
  else [0xf0 + n / 262144, 0x80 + (n / 4096) % 64, 0x80 + (n / 64) % 64, 0x80 + n % 64]

def utf8Bytes (s : String) : List Nat := s.data.flatMap utf8Char

/-- `hashlib.sha256(s.encode("utf-8")).hexdigest()`. -/
def sha256hex (s : String) : String :=
  let final := (chunk64 (shaPad (utf8Bytes s))).foldl shaBlock shaH0
  ⟨final.flatMap (hexWord 8)⟩

/-! ## Data model (`models.py`), with JSON state fields typed as described
in the header -/

abbrev AlertLevel := String

structure ChangeEventM where
  target : String
  summary : String
  link : Option String := none
  severity : AlertLevel := "info"
  occurred_at : DT
  kind : String
  metadata : List (String × String) := []
deriving Repr, DecidableEq

structure AlertPayloadM where
  alert_id : String
  source : String
  level : AlertLevel
  title : String
  body : String
  links : List String := []
  created_at : DT
  tags : List String := []
deriving Repr, DecidableEq

structure PendingAlertM where
  payload : AlertPayloadM
  attempts : Nat
  first_failed_at : DT
  next_retry_at : DT
deriving Repr, DecidableEq

/-- Orchestrator view of one target's state record.  Field defaults are the
defaults the code supplies at each defensive read (`t_state.get(k, default)`).
`extra` stands for checker-owned keys the orchestrator never reads. -/
structure TargetState where
  last_checked : Option DT := none
  consecutive_failures : Nat := 0
  last_error : Option String := none
  unreachable_alerted : Bool := false
  primary_state : String := "unknown"
  primary_silent_since : Option DT := none
  backup_alert_active : Bool := false
  phase : String := "unknown"
  content_hash : String := ""
  incident_alerted : Bool := false
  pending_incident_since : Option DT := none
  extra : List (String × String) := []
deriving Repr, DecidableEq

structure DigestChange where
  occurred_at : DT
  target : String
  summary : String
  severity : String
  kind : String
deriving Repr, DecidableEq

structure FailedCheck where
  occurred_at : DT
  target : String
  error : String
deriving Repr, DecidableEq

structure DigestState where
  changes : List DigestChange := []
  alerts_sent : Nat := 0
  failed_checks : List FailedCheck := []
  last_sent_date : Option String := none
deriving Repr, DecidableEq

structure MetaState where
  last_successful_run : Option DT := none
  watchdog_alerted : Bool := false
  sent_alert_ids : List String := []
  deployed_version : Option String := none
deriving Repr, DecidableEq

structure StateM where
  targets : List (String × TargetState) := []
  digest : DigestState := {}
  meta : MetaState := {}
deriving Repr, DecidableEq

/-- The fields of `config.py:Settings` the orchestrator core reads.
`retry_minutes` is the parsed form of `RETRY_PLAN_MINUTES`. -/
structure Settings where
  betterstack_enable_primary_gate : Bool
  betterstack_x_monitor_id : Option String
  betterstack_twitterapi_monitor_id : Option String
  status_interval_minutes : Int
  tweets_interval_minutes : Int
  docs_interval_minutes : Int
  digest_hour_local : Nat
  status_backup_alert_delay_minutes : Int
  unreachable_alert_after_failures : Nat
  watchdog_max_silence_minutes : Int
  max_links_per_alert : Nat
  retry_minutes : List Int
  retry_tail_minutes : Int
  retry_max_hours : Int
  allow_email_fallback : Bool
  x_status_url : String
  x_incidents_url : String
  twitterapi_status_url : String
deriving Repr, DecidableEq

/-- The documented defaults of `config.py` (with the primary gate enabled and
both monitor ids present, as `validate_email_fallback` requires). -/
def defaultSettings : Settings where
  betterstack_enable_primary_gate := true
  betterstack_x_monitor_id := some "mon-x"
  betterstack_twitterapi_monitor_id := some "mon-tapi"
  status_interval_minutes := 5
  tweets_interval_minutes := 30
  docs_interval_minutes := 30
  digest_hour_local := 8
  status_backup_alert_delay_minutes := 10
  unreachable_alert_after_failures := 3
  watchdog_max_silence_minutes := 60
  max_links_per_alert := 20
  retry_minutes := [1, 5, 15, 60]
  retry_tail_minutes := 360
  retry_max_hours := 48
  allow_email_fallback := true
  x_status_url := "https://docs.x.com/status"
  x_incidents_url := "https://docs.x.com/incidents"
  twitterapi_status_url := "https://twitterapi.io/status"

/-! ## Pure helpers of `run_monitor.py` -/

def should_run (last_checked : Option DT) (interval_minutes : Int) (now : DT) : Bool :=
  match last_checked with
  | none => true
  | some parsed => now - parsed ≥ minutesUs interval_minutes

def phase_to_level (phase : String) : AlertLevel :=
  if phase = "major_outage" ∨ phase = "partial_outage" ∨ phase = "degraded" then "critical"
  else if phase = "maintenance" ∨ phase = "monitoring" then "warning"
  else if phase = "operational" then "resolved"
  else "info"

def is_backup_non_operational (phase : String) : Bool :=
  phase == "major_outage" || phase == "partial_outage" || phase == "degraded" || phase == "maintenance"

def is_primary_non_operational (state : String) : Bool := state == "down"

def primary_monitor_id_for_target (s : Settings) (target_key : String) : Option String :=
  if target_key = "x_status" then s.betterstack_x_monitor_id
  else if target_key = "twitterapi_status" then s.betterstack_twitterapi_monitor_id
  else none

/-- The `|`-joined hash preimage of `build_alert_id`. -/
def rawId (source summary : String) (timestamp : DT) : String :=
  source ++ "|" ++ summary ++ "|" ++ isoformat (truncMin timestamp)

def build_alert_id (source summary : String) (timestamp : DT) : String :=
  (sha256hex (rawId source summary timestamp)).take 24

def normalize_version (value : Option String) : Option String :=
  match value with
  | none => none
  | some s => let normalized := s.trim; if normalized = "" then none else some normalized

def version_transition_alert (previous_version : Option String) (current_version : String)
    (now : DT) (first_run : Bool) : Option AlertPayloadM :=
  if first_run then none
  else if previous_version = some current_version then none
  else
    let previous_label := previous_version.getD "unknown"
    some
      { alert_id := build_alert_id "release" (previous_label ++ "->" ++ current_version) now
        source := "release"
        level := "info"
        title := "🚀 Infra Alerts updated to v" ++ current_version
        body := "Version changed from v" ++ previous_label ++ " to v" ++ current_version ++ "."
        links := []
        created_at := now
        tags := ["release", "version"] }

def emoji_by_level (level : AlertLevel) : String :=
  if level = "critical" then "🔴"
  else if level = "warning" then "⚠️"
  else if level = "resolved" then "🟢"
  else "📝"

def event_to_alert (event : ChangeEventM) : AlertPayloadM :=
  { alert_id := build_alert_id event.target event.summary event.occurred_at
    source := event.target
    level := event.severity
    title := emoji_by_level event.severity ++ " " ++ event.target
    body := event.summary
    links := match event.link with | some l => [l] | none => []
    created_at := event.occurred_at
    tags := [event.kind] }

/-- Stable insertion used to model Python's stable `sorted(key=occurred_at)`:
an element is inserted after existing elements with an equal key. -/
def insertByTime (x : ChangeEventM) : List ChangeEventM → List ChangeEventM
  | [] => [x]
  | y :: t => if x.occurred_at < y.occurred_at then x :: y :: t else y :: insertByTime x t

def sortByTime (events : List ChangeEventM) : List ChangeEventM :=
  events.foldl (fun acc e => insertByTime e acc) []

def insertStr (x : String) : List String → List String
  | [] => [x]
  | y :: t => if x < y then x :: y :: t else y :: insertStr x t

def sortStrs (l : List String) : List String := l.foldl (fun acc s => insertStr s acc) []

def lookupStr (m : List (String × String)) (k : String) (dflt : String) : String :=
  match m.lookup k with | some v => v | none => dflt

def joinSep (sep : String) : List String → String
  | [] => ""
  | [x] => x
  | x :: y :: t => x ++ sep ++ joinSep sep (y :: t)

def group_tweet_alert (events : List ChangeEventM) (now : DT) (max_links : Nat) :
    Option AlertPayloadM :=
  match events with
  | [] => none
  | _ :: _ =>
    let sorted_events := sortByTime events
    let links := (sorted_events.filterMap (·.link)).take max_links
    let accounts := sortStrs ((sorted_events.map (fun e => lookupStr e.metadata "account" "unknown")).eraseDups)
    let account_label := joinSep ", " (accounts.map (fun a => "@" ++ a))
    some
      { alert_id := build_alert_id "tweets-grouped" (decStr sorted_events.length) now
        source := "tweets"
        level := "info"
        title := "📢 New tweets detected"
        body := "Detected " ++ decStr sorted_events.length ++ " new tweets in the last run across " ++
          account_label ++ "." ++ " Showing up to " ++ decStr max_links ++ " links."
        links := links
        created_at := now
        tags := ["tweets"] }

def group_target_alert (target : String) (events : List ChangeEventM) (now : DT)
    (max_links : Nat) : AlertPayloadM :=
  let lines := (events.take max_links).map (fun e => "- " ++ e.summary)
  let links := (events.filterMap (·.link)).take max_links
  let extra : Int := (events.length : Int) - lines.length
  let lines := if extra > 0 then lines ++ ["- +" ++ decStr extra.toNat ++ " more"] else lines
  let body := joinSep "\n" lines
  let severity : AlertLevel :=
    if events.any (fun e => e.severity == "critical") then "critical"
    else if events.any (fun e => e.severity == "warning") then "warning"
    else "info"
  { alert_id := build_alert_id (target ++ "-summary") body now
    source := target
    level := severity
    title := "📝 " ++ target ++ " updates"
    body := body
    links := links
    created_at := now
    tags := ["summary"] }

/-- `next_retry_time`.  Callers always pass `attempts ≥ 1` (the `PendingAlert`
model documents `attempts ≥ 1`); `attempts - 1` is then the Python index. -/
def next_retry_time (s : Settings) (now : DT) (attempts : Nat) (first_failed_at : DT) :
    Option DT :=
  if now - first_failed_at > hoursUs s.retry_max_hours then none
  else
    let delay_minutes :=
      if attempts ≤ s.retry_minutes.length then s.retry_minutes.getD (attempts - 1) 0
      else s.retry_tail_minutes
    some (now + minutesUs delay_minutes)

def trim_sent_ids (ids : List String) (limit : Nat) : List String :=
  if ids.length ≤ limit then ids else ids.drop (ids.length - limit)

def record_change (st : StateM) (event : ChangeEventM) : StateM :=
  let changes := st.digest.changes ++
    [{ occurred_at := event.occurred_at, target := event.target, summary := event.summary,
       severity := event.severity, kind := event.kind }]
  let changes := if changes.length > 5000 then changes.drop (changes.length - 5000) else changes
  { st with digest := { st.digest with changes := changes } }

def record_failed_check (st : StateM) (target : String) (error : String) (now : DT) : StateM :=
  let failed := st.digest.failed_checks ++ [{ occurred_at := now, target := target, error := error }]
  let failed := if failed.length > 1000 then failed.drop (failed.length - 1000) else failed
  { st with digest := { st.digest with failed_checks := failed } }

/-- `deliver_alert`: try Slack, fall back to email.  `slack` is the Slack
outcome for this attempt (`none` = the send raised), `email` is `none` when no
email client is configured, otherwise the email outcome likewise. -/
def deliver_alert (slack : Option Bool) (email : Option (Option Bool)) : Bool :=
  let sent_to_slack := slack.getD false
  if sent_to_slack then true
  else
    match email with
    | none => false
    | some outcome => outcome.getD false

/-! ## `monitors/status.py`: the status-page checker

The checker is modelled from the point where the pages have been fetched and
text-extracted: `mergedText` is the `"\n".join(...)`-merged page text (the
fetch itself is a collaborator; a fetch failure surfaces as the checker's
exception and is handled at the orchestrator's `except` boundary). -/

def strLower (s : String) : String := ⟨s.data.map Char.toLower⟩

def prefixMatch : List Char → List Char → Bool
  | [], _ => true
  | _ :: _, [] => false
  | a :: t, b :: u => a == b && prefixMatch t u

def subMatch (needle : List Char) : List Char → Bool
  | [] => prefixMatch needle []
  | b :: u => prefixMatch needle (b :: u) || subMatch needle u

/-- Python `needle in hay`. -/
def containsText (hay needle : String) : Bool := subMatch needle.data hay.data

def phase_from_text (text : String) : String :=
  let lowered := strLower text
  if containsText lowered "all systems operational" || containsText lowered "active incidents 0" then "operational"
  else if containsText lowered "major outage" then "major_outage"
  else if containsText lowered "partial outage" then "partial_outage"
  else if containsText lowered "degraded" then "degraded"
  else if containsText lowered "maintenance" then "maintenance"
  else if containsText lowered "monitoring" || containsText lowered "incident" then "monitoring"
  else if containsText lowered "operational" then "operational"
  else "unknown"

def level_for_phase (phase : String) : AlertLevel :=
  if phase = "major_outage" ∨ phase = "partial_outage" ∨ phase = "degraded" then "critical"
  else if phase = "maintenance" ∨ phase = "monitoring" then "warning"
  else if phase = "operational" then "resolved"
  else "info"

def hash_text (text : String) : String := "sha256:" ++ sha256hex text

/-- The `state_update` patch `check_status_page` returns; `none` sub-fields
are keys absent from the patch dict. -/
structure StatusUpdate where
  content_hash : String
  phase : String
  last_checked : DT
  pending_incident_since : Option (Option DT) := none
  incident_alerted : Option Bool := none
deriving Repr, DecidableEq

structure StatusCheckResult where
  target : String
  events : List ChangeEventM
  state_update : StatusUpdate
deriving Repr, DecidableEq

def check_status_page (target : String) (urls : List String) (previous_state : TargetState)
    (mergedText : String) (now : DT) (alert_delay_minutes : Int) : StatusCheckResult :=
  let content_hash := hash_text mergedText
  let phase := phase_from_text mergedText
  let prev_phase := previous_state.phase
  let prev_hash := previous_state.content_hash
  let incident_alerted := previous_state.incident_alerted
  let pending_since := previous_state.pending_incident_since
  let phase_non_operational := phase ≠ "operational" ∧ phase ≠ "unknown"
  let prev_non_operational := prev_phase ≠ "operational" ∧ prev_phase ≠ "unknown"
  if _h : phase_non_operational then
    let since := pending_since.getD now
    let upd : StatusUpdate :=
      { content_hash := content_hash, phase := phase, last_checked := now,
        pending_incident_since := some (some since) }
    if incident_alerted then
      let events :=
        if phase ≠ prev_phase ∨ content_hash ≠ prev_hash then
          [{ target := target, summary := "Status update: " ++ phase.replace "_" " ",
             link := urls.head?, severity := level_for_phase phase, occurred_at := now,
             kind := "status_update" : ChangeEventM }]
        else []
      { target := target, events := events, state_update := upd }
    else if now - since ≥ minutesUs alert_delay_minutes then
      { target := target
        events := [{ target := target, summary := "Incident detected: " ++ phase.replace "_" " ",
                     link := urls.head?, severity := level_for_phase phase, occurred_at := now,
                     kind := "incident_started" : ChangeEventM }]
        state_update := { upd with incident_alerted := some true } }
    else
      { target := target, events := [], state_update := { upd with incident_alerted := some false } }
  else
    let upd : StatusUpdate :=
      { content_hash := content_hash, phase := phase, last_checked := now,
        pending_incident_since := some none, incident_alerted := some false }
    let events :=
      if incident_alerted ∨ prev_non_operational then
        [{ target := target, summary := "Service recovered and is operational",
           link := urls.head?, severity := "resolved", occurred_at := now,
           kind := "incident_resolved" : ChangeEventM }]
      else []
    { target := target, events := events, state_update := upd }

/-- `t_state.update(result.state_update)` for a status check. -/
def applyStatusUpdate (t : TargetState) (u : StatusUpdate) : TargetState :=
  { t with
    content_hash := u.content_hash
    phase := u.phase
    last_checked := some u.last_checked
    pending_incident_since := u.pending_incident_since.getD t.pending_incident_since
    incident_alerted := u.incident_alerted.getD t.incident_alerted }

/-! ## `digest.py`: the daily digest -/

def countOccurrences (l : List String) (x : String) : Nat := (l.filter (· == x)).length

def digestCountLines (targets : List String) : List String :=
  (sortStrs targets.eraseDups).map (fun t => t ++ ": " ++ decStr (countOccurrences targets t))

def build_daily_digest (st : StateM) (now : DT) : AlertPayloadM :=
  let cutoff := now - 24 * usPerHour
  let recent_changes := st.digest.changes.filter (fun c => c.occurred_at ≥ cutoff)
  let recent_failed := st.digest.failed_checks.filter (fun f => f.occurred_at ≥ cutoff)
  let body :=
    if recent_changes.isEmpty ∧ recent_failed.isEmpty then
      "✅ All quiet — 0 changes detected across 8 targets in the last 24h"
    else
      let lines := digestCountLines (recent_changes.map (·.target))
      let failed_lines := digestCountLines (recent_failed.map (·.target))
      let body_parts := ["Last 24h summary:",
        "- total changes: " ++ decStr recent_changes.length,
        "- alerts sent: " ++ decStr st.digest.alerts_sent]
      let body_parts := if lines.isEmpty then body_parts
        else body_parts ++ ["- changes by target: " ++ joinSep ", " lines]
      let body_parts := if failed_lines.isEmpty then body_parts
        else body_parts ++ ["- failed checks: " ++ joinSep ", " failed_lines]
      joinSep "\n" body_parts
  { alert_id := "daily-digest-" ++ dateIso now
    source := "daily_digest"
    level := "info"
    title := "🧾 Daily infra digest"
    body := body
    links := []
    created_at := now
    tags := ["digest"] }

/-! ## `state.py`: persisted-state loading

`StateStore.load_state` reads the state file and inspects it through
`Path.exists`, `str.strip`, `json.loads` and `isinstance`.  `FileContent`
partitions the possible prior file contents by exactly those observations:
the file is absent; its text strips to empty; `json.loads` raises
`JSONDecodeError`; or it parses to a JSON value `v`. -/

inductive JValue where
  | jnull : JValue
  | jbool : Bool → JValue
  | jnum : Int → JValue
  | jstr : String → JValue
  | jarr : List JValue → JValue
  | jobj : List (String × JValue) → JValue
deriving Repr

inductive FileContent where
  | missing : FileContent
  | emptyText : FileContent
  | malformed : FileContent
  | parsed : JValue → FileContent
deriving Repr

/-- Python `dict.update`: keys of `add` override `base`, new keys append. -/
def dictUpdate (base : List (String × JValue)) : List (String × JValue) → List (String × JValue)
  | [] => base
  | (k, v) :: rest =>
      if (base.map Prod.fst).contains k then
        dictUpdate (base.map (fun p => if p.1 = k then (k, v) else p)) rest
      else dictUpdate (base ++ [(k, v)]) rest

def default_state (now : DT) : List (String × JValue) :=
  [("version", .jnum 1),
   ("last_updated", .jstr (isoformat now)),
   ("targets", .jobj []),
   ("digest", .jobj [("changes", .jarr []), ("alerts_sent", .jnum 0),
                     ("failed_checks", .jarr []), ("last_sent_date", .jnull)]),
   ("meta", .jobj [("last_successful_run", .jnull), ("watchdog_alerted", .jbool false),
                   ("sent_alert_ids", .jarr []), ("deployed_version", .jnull)])]

def isJObj : Option JValue → Bool
  | some (.jobj _) => true
  | _ => false

def setKey (doc : List (String × JValue)) (k : String) (v : JValue) : List (String × JValue) :=
  if (doc.map Prod.fst).contains k then doc.map (fun p => if p.1 = k then (k, v) else p)
  else doc ++ [(k, v)]

/-- Re-default one of `targets`/`digest`/`meta` when its loaded value is not
a dict (`state["targets"] = {}` resp. `default_state()[key]`). -/
def fixShape (doc : List (String × JValue)) (k : String) (dflt : JValue) :
    List (String × JValue) :=
  if isJObj (doc.lookup k) then doc else setKey doc k dflt

/-- `StateStore.load_state`; an `Except.error` is an uncaught exception. -/
def load_state (fc : FileContent) (now : DT) : Except String (List (String × JValue)) :=
  match fc with
  | .missing => .ok (default_state now)
  | .emptyText => .ok (default_state now)
  | .malformed => .error "json.decoder.JSONDecodeError"
  | .parsed v =>
      match v with
      | .jobj fields =>
          let st := dictUpdate (default_state now) fields
          let st := fixShape st "targets" (.jobj [])
          let st := fixShape st "digest"
            (.jobj [("changes", .jarr []), ("alerts_sent", .jnum 0),
                    ("failed_checks", .jarr []), ("last_sent_date", .jnull)])
          let st := fixShape st "meta"
            (.jobj [("last_successful_run", .jnull), ("watchdog_alerted", .jbool false),
                    ("sent_alert_ids", .jarr []), ("deployed_version", .jnull)])
          .ok st
      | _ => .ok (default_state now)

/-! ## The run orchestrator (`run_monitor.py:run`)

External collaborators (the fetcher, the non-status checkers, the Better
Stack API, `importlib.metadata.version`, the timezone database and the two
delivery channels) enter as oracles.  A checker/fetch exception is an
`Except.error` handled at the orchestrator's per-target `except` boundary. -/

def decStrInt (i : Int) : String := if i < 0 then "-" ++ decStr i.natAbs else decStr i.toNat

/-- Lines 284-316: the watchdog.  Returns the watchdog events and the updated
`meta`; both `if`s test the local `watchdog_alerted` captured before either
branch runs. -/
def watchdogPhase (s : Settings) (meta : MetaState) (now : DT) :
    List AlertPayloadM × MetaState :=
  match meta.last_successful_run with
  | none => ([], meta)
  | some last_successful_run =>
    let silent_for := now - last_successful_run
    let watchdog_alerted := meta.watchdog_alerted
    let threshold := minutesUs s.watchdog_max_silence_minutes
    let first :=
      if silent_for ≥ threshold ∧ ¬ watchdog_alerted then
        ([{ alert_id := build_alert_id "watchdog" "silent" now
            source := "watchdog"
            level := "warning"
            title := "⚠️ Monitor watchdog"
            body := "No successful monitor run detected for " ++
              decStrInt (silent_for.ediv usPerMinute) ++ " minutes."
            links := []
            created_at := now
            tags := ["watchdog"] : AlertPayloadM }], { meta with watchdog_alerted := true })
      else ([], meta)
    if silent_for < threshold ∧ watchdog_alerted then
      (first.1 ++ [{ alert_id := build_alert_id "watchdog" "recovered" now
                     source := "watchdog"
                     level := "resolved"
                     title := "🟢 Monitor watchdog recovered"
                     body := "Successful monitor runs resumed."
                     links := []
                     created_at := now
                     tags := ["watchdog"] : AlertPayloadM }],
        { first.2 with watchdog_alerted := false })
    else first

/-- Result contract of the external (non-status) checkers: events plus the
`state_update` patch shallow-merged into the target's record. -/
structure ExtCheckResult where
  events : List ChangeEventM
  patch : TargetState → TargetState

/-- Per-run oracle inputs standing for the external collaborators. -/
structure RunOracles where
  current_version : String
  primary_fetch : Except String (List (String × String))
  status_text : String → Except String String
  tweets_result : String → Except String ExtCheckResult
  docs_result : String → Except String ExtCheckResult
  local_date : String
  local_hour : Nat

/-- `target_state`: fetch the target's record, inserting a fresh one. -/
def targetGet (targets : List (String × TargetState)) (key : String) :
    TargetState × List (String × TargetState) :=
  match targets.lookup key with
  | some t => (t, targets)
  | none => ({}, targets ++ [(key, {})])

def setTarget (targets : List (String × TargetState)) (key : String) (v : TargetState) :
    List (String × TargetState) :=
  if (targets.map Prod.fst).contains key then
    targets.map (fun p => if p.1 = key then (key, v) else p)
  else targets ++ [(key, v)]

/-- Lines 407-465: the primary/backup incident-gating block for one status
target, run after `t_state` has absorbed the check's `state_update` and
`primary_state`.  Returns the updated record and the alerts it appends. -/
def statusGating (s : Settings) (target_key : String) (urls : List String) (now : DT)
    (current_phase : String) (events : List ChangeEventM) (tSt : TargetState) :
    TargetState × List AlertPayloadM :=
  let backup_alert_active := tSt.backup_alert_active
  if is_backup_non_operational current_phase then
    if is_primary_non_operational tSt.primary_state then
      ({ tSt with primary_silent_since := none, backup_alert_active := backup_alert_active }, [])
    else
      let withSilence :=
        match tSt.primary_silent_since with
        | none => ({ tSt with primary_silent_since := some now }, now)
        | some ss => (tSt, ss)
      let silence_elapsed := now - withSilence.2
      let afterIncident :=
        if silence_elapsed ≥ minutesUs s.status_backup_alert_delay_minutes ∧
            ¬ backup_alert_active then
          let phase_label := current_phase.replace "_" " "
          ([{ alert_id := build_alert_id target_key ("primary_silent_" ++ phase_label) now
              source := target_key
              level := phase_to_level current_phase
              title := "⚠️ " ++ target_key ++ " backup incident"
              body := "Backup check detected " ++ phase_label ++
                " while Better Stack stayed operational" ++ " for at least " ++
                decStrInt s.status_backup_alert_delay_minutes ++ " minutes."
              links := urls.take 1
              created_at := now
              tags := ["backup_signal", "primary_silent"] : AlertPayloadM }], true)
        else ([], backup_alert_active)
      let alerts :=
        if afterIncident.2 then
          afterIncident.1 ++ (events.filter (fun e => e.kind == "status_update")).map (fun e =>
            let update_alert := event_to_alert e
            { update_alert with tags := update_alert.tags ++ ["backup_signal"] })
        else afterIncident.1
      ({ withSilence.1 with backup_alert_active := afterIncident.2 }, alerts)
  else
    let tSt2 := { tSt with primary_silent_since := none }
    if backup_alert_active then
      ({ tSt2 with backup_alert_active := false },
        [{ alert_id := build_alert_id target_key "backup_incident_resolved" now
           source := target_key
           level := "resolved"
           title := "🟢 " ++ target_key ++ " backup incident resolved"
           body := "Backup-detected incident has recovered."
           links := urls.take 1
           created_at := now
           tags := ["backup_signal", "resolved"] : AlertPayloadM }])
    else ({ tSt2 with backup_alert_active := false }, [])

structure GenAcc where
  st : StateM
  alerts : List AlertPayloadM

/-- Lines 363-493: one iteration of the status-target loop. -/
def statusTargetStep (s : Settings) (orc : RunOracles)
    (primary_monitor_states : List (String × String)) (now : DT) (acc : GenAcc)
    (kv : String × List String) : GenAcc :=
  let target_key := kv.1
  let urls := kv.2
  let got := targetGet acc.st.targets target_key
  let tSt := got.1
  let st1 := { acc.st with targets := got.2 }
  if ¬ should_run tSt.last_checked s.status_interval_minutes now then
    { st := st1, alerts := acc.alerts }
  else
    match orc.status_text target_key with
    | .error exc =>
        let failures := tSt.consecutive_failures + 1
        let tSt1 := { tSt with consecutive_failures := failures, last_error := some exc,
                               last_checked := some now }
        let st2 := record_failed_check st1 target_key exc now
        let withAlert :=
          if failures ≥ s.unreachable_alert_after_failures ∧ ¬ tSt1.unreachable_alerted then
            (acc.alerts ++
              [{ alert_id := build_alert_id target_key "unreachable" now
                 source := target_key
                 level := "warning"
                 title := "⚠️ " ++ target_key ++ " unreachable"
                 body := target_key ++ " has been unreachable for " ++ decStr failures ++
                   " consecutive checks." ++ " Last error: " ++ exc
                 links := urls.take 1
                 created_at := now
                 tags := ["unreachable"] : AlertPayloadM }],
              { tSt1 with unreachable_alerted := true })
          else (acc.alerts, tSt1)
        { st := { st2 with targets := setTarget st2.targets target_key withAlert.2 },
          alerts := withAlert.1 }
    | .ok mergedText =>
        let result := check_status_page target_key urls tSt mergedText now 0
        let previous_failures := tSt.consecutive_failures
        let alerts1 :=
          if previous_failures ≥ s.unreachable_alert_after_failures then
            acc.alerts ++
              [{ alert_id := build_alert_id target_key "reachable_again" now
                 source := target_key
                 level := "resolved"
                 title := "🟢 " ++ target_key ++ " reachable again"
                 body := target_key ++ " recovered after " ++ decStr previous_failures ++
                   " failed checks."
                 links := urls.take 1
                 created_at := now
                 tags := ["recovery"] : AlertPayloadM }]
          else acc.alerts
        let tSt1 := applyStatusUpdate tSt result.state_update
        let tSt2 := { tSt1 with consecutive_failures := 0, last_error := none }
        let st2 := result.events.foldl record_change st1
        let monitor_id := primary_monitor_id_for_target s target_key
        let primary_state :=
          match monitor_id with
          | none => "unknown"
          | some mid => lookupStr primary_monitor_states mid "unknown"
        let tSt3 := { tSt2 with primary_state := primary_state }
        let gated := statusGating s target_key urls now result.state_update.phase result.events tSt3
        let tSt4 := { gated.1 with unreachable_alerted := false }
        { st := { st2 with targets := setTarget st2.targets target_key tSt4 },
          alerts := alerts1 ++ gated.2 }

/-- Lines 500-527: one iteration of the tweets loop; collects events rather
than emitting per-target alerts. -/
def tweetsTargetStep (s : Settings) (orc : RunOracles) (now : DT)
    (acc : GenAcc × List ChangeEventM) (target_key : String) :
    GenAcc × List ChangeEventM :=
  let got := targetGet acc.1.st.targets target_key
  let tSt := got.1
  let st1 := { acc.1.st with targets := got.2 }
  if ¬ should_run tSt.last_checked s.tweets_interval_minutes now then
    ({ st := st1, alerts := acc.1.alerts }, acc.2)
  else
    match orc.tweets_result target_key with
    | .error exc =>
        let tSt1 := { tSt with consecutive_failures := tSt.consecutive_failures + 1,
                               last_error := some exc, last_checked := some now }
        let st2 := record_failed_check st1 target_key exc now
        ({ st := { st2 with targets := setTarget st2.targets target_key tSt1 },
           alerts := acc.1.alerts }, acc.2)
    | .ok result =>
        let tSt1 := result.patch tSt
        let tSt2 := { tSt1 with consecutive_failures := 0, last_error := none }
        let st2 := result.events.foldl record_change st1
        ({ st := { st2 with targets := setTarget st2.targets target_key tSt2 },
           alerts := acc.1.alerts }, acc.2 ++ result.events)

/-- Lines 541-596: one iteration of the docs-targets loop. -/
def docsTargetStep (s : Settings) (orc : RunOracles) (now : DT) (acc : GenAcc)
    (target_key : String) : GenAcc :=
  let got := targetGet acc.st.targets target_key
  let tSt := got.1
  let st1 := { acc.st with targets := got.2 }
  if ¬ should_run tSt.last_checked s.docs_interval_minutes now then
    { st := st1, alerts := acc.alerts }
  else
    match orc.docs_result target_key with
    | .error exc =>
        let tSt1 := { tSt with consecutive_failures := tSt.consecutive_failures + 1,
                               last_error := some exc, last_checked := some now }
        let st2 := record_failed_check st1 target_key exc now
        { st := { st2 with targets := setTarget st2.targets target_key tSt1 },
          alerts := acc.alerts }
    | .ok result =>
        let tSt1 := result.patch tSt
        let tSt2 := { tSt1 with consecutive_failures := 0, last_error := none }
        if result.events.isEmpty then
          { st := { st1 with targets := setTarget st1.targets target_key tSt2 },
            alerts := acc.alerts }
        else
          let st2 := result.events.foldl record_change st1
          { st := { st2 with targets := setTarget st2.targets target_key tSt2 },
            alerts := acc.alerts ++ [group_target_alert target_key result.events now s.max_links_per_alert] }

/-- The bootstrap alert emitted on a first run (lines 606-618). -/
def bootstrapAlert (current_version : String) (now : DT) : AlertPayloadM :=
  { alert_id := build_alert_id "init" "initialized" now
    source := "bootstrap"
    level := "info"
    title := "🚀 Verefy Infra Alerts initialized"
    body := "Monitoring initialized for 8 targets across X and twitterapi.io. Version: v" ++
      current_version ++ "."
    links := []
    created_at := now
    tags := ["bootstrap"] }

/-- Lines 346-356: the Better Stack primary-monitor fetch (the dict stays
empty when the gate is disabled or the fetch raises). -/
def primaryPhase (s : Settings) (orc : RunOracles) (st : StateM) (now : DT) :
    List (String × String) × StateM :=
  if s.betterstack_enable_primary_gate then
    match orc.primary_fetch with
    | .ok m => (m, st)
    | .error exc => ([], record_failed_check st "betterstack_primary" exc now)
  else ([], st)

/-- Lines 529-532: append the grouped tweet alert when tweets were seen. -/
def tweetsGroupPhase (s : Settings) (now : DT) (acc : GenAcc)
    (tweet_events : List ChangeEventM) : GenAcc :=
  if tweet_events.isEmpty then acc
  else
    match group_tweet_alert tweet_events now s.max_links_per_alert with
    | some grouped => { st := acc.st, alerts := acc.alerts ++ [grouped] }
    | none => acc

/-- Lines 598-604: once-daily digest emission. -/
def digestPhase (s : Settings) (orc : RunOracles) (acc : GenAcc) (now : DT) : GenAcc :=
  let digestDue : Bool :=
    (match acc.st.digest.last_sent_date with
     | some d => d != orc.local_date
     | none => true) && decide (orc.local_hour ≥ s.digest_hour_local)
  if digestDue then
    { st := { acc.st with digest := { acc.st.digest with last_sent_date := some orc.local_date } }
      alerts := acc.alerts ++ [build_daily_digest acc.st now] }
  else acc

/-- Lines 260-620: everything up to (and including) the first-run override.
Returns `all_alerts = watchdog_events + new_alerts` and the mutated state. -/
def runGenerate (s : Settings) (orc : RunOracles) (st0 : StateM) (now : DT) :
    List AlertPayloadM × StateM :=
  let first_run := st0.targets.isEmpty
  let wd := watchdogPhase s st0.meta now
  let watchdog_events := wd.1
  let st1 := { st0 with meta := wd.2 }
  let current_version := orc.current_version
  let previous_version := normalize_version st1.meta.deployed_version
  let version_alert := version_transition_alert previous_version current_version now first_run
  let new_alerts0 := match version_alert with | some a => [a] | none => []
  let st2 := { st1 with meta := { st1.meta with deployed_version := some current_version } }
  let primaries := primaryPhase s orc st2 now
  let acc0 : GenAcc := { st := primaries.2, alerts := new_alerts0 }
  let acc1 := [("x_status", [s.x_status_url, s.x_incidents_url]),
               ("twitterapi_status", [s.twitterapi_status_url])].foldl
    (statusTargetStep s orc primaries.1 now) acc0
  let tw := ["api_tweets", "xdevelopers_tweets"].foldl (tweetsTargetStep s orc now) (acc1, [])
  let acc3 := tweetsGroupPhase s now tw.1 tw.2
  let acc4 := ["x_docs_github", "x_changelog", "twitterapi_changelog", "twitterapi_sitemap"].foldl
    (docsTargetStep s orc now) acc3
  let acc5 := digestPhase s orc acc4 now
  let new_alerts_final := if first_run then [bootstrapAlert current_version now] else acc5.alerts
  (watchdog_events ++ new_alerts_final, acc5.st)

/-! ## The delivery phase (lines 622-678) -/

/-- Per-attempt outcomes of the two channels, indexed by the run's attempt
counter (`none` = the send raised). -/
structure DeliverOracles where
  slack : Nat → Option Bool
  email : Nat → Option Bool

def attemptDelivery (s : Settings) (dorc : DeliverOracles) (k : Nat) : Bool :=
  deliver_alert (dorc.slack k) (if s.allow_email_fallback then some (dorc.email k) else none)

structure DelivAcc where
  sent_ids : List String
  alerts_sent : Nat
  remaining : List (String × PendingAlertM)
  dropped : List String
  attempted : List String
  k : Nat

/-- `remaining_pending[id] = item` (dict insert-or-overwrite). -/
def setAssoc (l : List (String × PendingAlertM)) (key : String) (v : PendingAlertM) :
    List (String × PendingAlertM) :=
  if (l.map Prod.fst).contains key then l.map (fun p => if p.1 = key then (key, v) else p)
  else l ++ [(key, v)]

/-- Lines 631-650: one queued item. -/
def pendingStep (s : Settings) (dorc : DeliverOracles) (now : DT) (acc : DelivAcc)
    (pending_item : PendingAlertM) : DelivAcc :=
  if pending_item.next_retry_at > now then
    { acc with remaining := setAssoc acc.remaining pending_item.payload.alert_id pending_item }
  else
    let sent := attemptDelivery s dorc acc.k
    let acc1 := { acc with attempted := acc.attempted ++ [pending_item.payload.alert_id],
                           k := acc.k + 1 }
    if sent then
      { acc1 with sent_ids := acc1.sent_ids ++ [pending_item.payload.alert_id],
                  alerts_sent := acc1.alerts_sent + 1 }
    else
      let attempts := pending_item.attempts + 1
      match next_retry_time s now attempts pending_item.first_failed_at with
      | none => { acc1 with dropped := acc1.dropped ++ [pending_item.payload.alert_id] }
      | some next_time =>
          let item : PendingAlertM :=
            { payload := pending_item.payload, attempts := attempts,
              first_failed_at := pending_item.first_failed_at, next_retry_at := next_time }
          { acc1 with remaining := setAssoc acc1.remaining pending_item.payload.alert_id item }

/-- Lines 652-672: one freshly generated alert. -/
def alertStep (s : Settings) (dorc : DeliverOracles) (now : DT) (acc : DelivAcc)
    (alert : AlertPayloadM) : DelivAcc :=
  if acc.sent_ids.contains alert.alert_id then acc
  else if (acc.remaining.map Prod.fst).contains alert.alert_id then acc
  else
    let sent := attemptDelivery s dorc acc.k
    let acc1 := { acc with attempted := acc.attempted ++ [alert.alert_id], k := acc.k + 1 }
    if sent then
      { acc1 with sent_ids := acc1.sent_ids ++ [alert.alert_id],
                  alerts_sent := acc1.alerts_sent + 1 }
    else
      match next_retry_time s now 1 now with
      | none => acc1
      | some next_time =>
          let item : PendingAlertM :=
            { payload := alert, attempts := 1, first_failed_at := now,
              next_retry_at := next_time }
          { acc1 with remaining := setAssoc acc1.remaining alert.alert_id item }

structure RunResult where
  state : StateM
  remaining_pending : List (String × PendingAlertM)
  attempted : List String
  dropped : List String

/-- Lines 629-678: deliver due queue items, then the run's alerts; trim the
sent-id list and stamp the successful run. -/
def deliveryPhase (s : Settings) (dorc : DeliverOracles) (now : DT)
    (pending_models : List PendingAlertM) (all_alerts : List AlertPayloadM) (st : StateM) :
    RunResult :=
  let acc0 : DelivAcc := { sent_ids := st.meta.sent_alert_ids, alerts_sent := st.digest.alerts_sent,
                           remaining := [], dropped := [], attempted := [], k := 0 }
  let acc1 := pending_models.foldl (pendingStep s dorc now) acc0
  let acc2 := all_alerts.foldl (alertStep s dorc now) acc1
  { state :=
      { st with
        meta := { st.meta with sent_alert_ids := trim_sent_ids acc2.sent_ids 2000,
                               last_successful_run := some now }
        digest := { st.digest with alerts_sent := acc2.alerts_sent } }
    remaining_pending := acc2.remaining
    attempted := acc2.attempted
    dropped := acc2.dropped }

/-- One whole invocation of `run()` (state already loaded, pending already
validated into models). -/
def runModel (s : Settings) (orc : RunOracles) (dorc : DeliverOracles) (st0 : StateM)
    (pending_models : List PendingAlertM) (now : DT) : RunResult :=
  let gen := runGenerate s orc st0 now
  deliveryPhase s dorc now pending_models gen.1 gen.2

/-! ## Remaining definitions used by the statements -/

/-- The representable range of a Python `datetime` (year 1 through 9999), in
microseconds since the Unix epoch: `0001-01-01T00:00` is `-62135596800` s and
`10000-01-01T00:00` would be `253402300800` s. -/
def validDT (t : Int) : Prop := -62135596800000000 ≤ t ∧ t < 253402300800000000

/-- Concrete first-run state whose `meta` still carries an old
`last_successful_run` (100 minutes before `c3Now`) with `targets == {}`. -/
def c3Now : DT := 1760254496000000

def c3State : StateM :=
  { targets := []
    digest := {}
    meta := { last_successful_run := some (c3Now - minutesUs 100), watchdog_alerted := false,
              sent_alert_ids := [], deployed_version := some "0.1.0" } }

/-- Concrete oracles: every external fetch fails, version unchanged, local
time before the digest hour. -/
def c3Orc : RunOracles :=
  { current_version := "0.1.0"
    primary_fetch := .error "net down"
    status_text := fun _ => .error "net down"
    tweets_result := fun _ => .error "net down"
    docs_result := fun _ => .error "net down"
    local_date := "2026-10-12"
    local_hour := 0 }

/-- Number of backup-incident alerts (identified by their `primary_silent`
tag) in an alert list. -/
def backupIncidentCount (alerts : List AlertPayloadM) : Nat :=
  (alerts.filter (fun a => a.tags.contains "primary_silent")).length

/-- Decimal decoding, used to prove `padDec` injective. -/
def decodeDec (l : List Char) : Nat := l.foldl (fun acc c => acc * 10 + (c.toNat - 48)) 0

/-! # Theorems -/

/-- C9: bounded-state invariant: `record_change` keeps `digest.changes` at or
below 5000 entries, `record_failed_check` keeps `digest.failed_checks` at or
below 1000, and the sent-id list is trimmed to at most 2000 ids (as `run`
applies `trim_sent_ids` before saving) — each holds for every input state. -/
theorem C9_bounded_state (st : StateM) (event : ChangeEventM) (target error : String)
    (now : DT) (ids : List String) :
    (record_change st event).digest.changes.length ≤ 5000 ∧
    (record_failed_check st target error now).digest.failed_checks.length ≤ 1000 ∧
    (trim_sent_ids ids 2000).length ≤ 2000 := by
  refine ⟨?_, ?_, ?_⟩
  · simp only [record_change]
    split <;> simp_all <;> omega
  · simp only [record_failed_check]
    split <;> simp_all <;> omega
  · simp only [trim_sent_ids]
    split <;> simp_all <;> omega

/-- C6: once `now - first_failed_at` strictly exceeds the retry window,
`next_retry_time` returns `none`, and a due queue item whose delivery attempt
fails is appended to the dropped log and adds nothing to the retained queue. -/
theorem C6_retry_window_drop (s : Settings) (dorc : DeliverOracles) (now : DT)
    (acc : DelivAcc) (p : PendingAlertM)
    (hdue : ¬ p.next_retry_at > now)
    (hfail : attemptDelivery s dorc acc.k = false)
    (hexp : now - p.first_failed_at > hoursUs s.retry_max_hours) :
    next_retry_time s now (p.attempts + 1) p.first_failed_at = none ∧
    (pendingStep s dorc now acc p).remaining = acc.remaining ∧
    (pendingStep s dorc now acc p).dropped = acc.dropped ++ [p.payload.alert_id] := by
  have h1 : next_retry_time s now (p.attempts + 1) p.first_failed_at = none := by
    simp only [next_retry_time, if_pos hexp]
  refine ⟨h1, ?_, ?_⟩ <;> simp [pendingStep, hdue, hfail, h1]

/-- C6 witness: a concrete expired due item with a failing channel. -/
theorem C6_retry_window_drop_witness :
    (pendingStep defaultSettings ⟨fun _ => some false, fun _ => some false⟩ 200000000000
      { sent_ids := [], alerts_sent := 0, remaining := [], dropped := [], attempted := [], k := 0 }
      { payload := { alert_id := "a1", source := "s", level := "info", title := "t",
                     body := "b", links := [], created_at := 0, tags := [] },
        attempts := 3, first_failed_at := 0, next_retry_at := 100 }).remaining = [] := by
  have h := C6_retry_window_drop defaultSettings ⟨fun _ => some false, fun _ => some false⟩
    200000000000
    { sent_ids := [], alerts_sent := 0, remaining := [], dropped := [], attempted := [], k := 0 }
    { payload := { alert_id := "a1", source := "s", level := "info", title := "t",
                   body := "b", links := [], created_at := 0, tags := [] },
      attempts := 3, first_failed_at := 0, next_retry_at := 100 }
    (by decide) (by decide) (by decide)
  exact h.2.1

/-- C7: within the retry window, `next_retry_time` follows the backoff
schedule indexed by `attempts - 1`, falls back to the tail delay once the
schedule is exhausted, and for the default schedule `[1,5,15,60]` with tail
`360` the returned `next_retry_at` is strictly increasing in `attempts` up to
the tail plateau, with `attempts = 1` yielding `now + 1` minute. -/
theorem C7_retry_schedule (s : Settings) (now : DT) (attempts : Nat) (first_failed_at : DT)
    (h1 : 1 ≤ attempts) (hwin : ¬ now - first_failed_at > hoursUs s.retry_max_hours) :
    (attempts ≤ s.retry_minutes.length →
      next_retry_time s now attempts first_failed_at =
        some (now + minutesUs (s.retry_minutes.getD (attempts - 1) 0))) ∧
    (s.retry_minutes.length < attempts →
      next_retry_time s now attempts first_failed_at =
        some (now + minutesUs s.retry_tail_minutes)) ∧
    (s = defaultSettings →
      (∀ a : Nat, 1 ≤ a → a ≤ 4 →
        ∃ t1 t2, next_retry_time s now a first_failed_at = some t1 ∧
          next_retry_time s now (a + 1) first_failed_at = some t2 ∧ t1 < t2) ∧
      (∀ a : Nat, 5 ≤ a →
        next_retry_time s now a first_failed_at = some (now + minutesUs 360)) ∧
      next_retry_time s now 1 first_failed_at = some (now + minutesUs 1)) := by
  refine ⟨?_, ?_, ?_⟩
  · intro hle
    simp only [next_retry_time, if_neg hwin, if_pos hle]
  · intro hgt
    simp only [next_retry_time, if_neg hwin]
    rw [if_neg (by omega)]
  · rintro rfl
    refine ⟨?_, ?_, ?_⟩
    · intro a ha1 ha4
      interval_cases a
      · exact ⟨_, _, by simp only [next_retry_time, if_neg hwin]; rfl,
          by simp only [next_retry_time, if_neg hwin]; rfl,
          by simp [defaultSettings, minutesUs, usPerMinute]⟩
      · exact ⟨_, _, by simp only [next_retry_time, if_neg hwin]; rfl,
          by simp only [next_retry_time, if_neg hwin]; rfl,
          by simp [defaultSettings, minutesUs, usPerMinute]⟩
      · exact ⟨_, _, by simp only [next_retry_time, if_neg hwin]; rfl,
          by simp only [next_retry_time, if_neg hwin]; rfl,
          by simp [defaultSettings, minutesUs, usPerMinute]⟩
      · exact ⟨_, _, by simp only [next_retry_time, if_neg hwin]; rfl,
          by simp only [next_retry_time, if_neg hwin]; rfl,
          by simp [defaultSettings, minutesUs, usPerMinute]⟩
    · intro a ha5
      simp only [next_retry_time, if_neg hwin]
      rw [if_neg (by simp [defaultSettings]; omega)]
      rfl
    · simp only [next_retry_time, if_neg hwin]
      rfl

/-- C7 witness: first failure with the default schedule retries after one
minute. -/
theorem C7_retry_schedule_witness : next_retry_time defaultSettings 0 1 0 = some 60000000 := by
  have h := C7_retry_schedule defaultSettings 0 1 0 (by decide) (by decide)
  rw [(h.2.2 rfl).2.2]
  rfl

/-- C10: when the loaded `meta.last_successful_run` is absent, the watchdog
emits no alert in either direction and leaves `meta` (in particular the
`watchdog_alerted` flag) unchanged, whatever the flag's value. -/
theorem C10_watchdog_skip (s : Settings) (meta : MetaState) (now : DT)
    (h : meta.last_successful_run = none) :
    (watchdogPhase s meta now).1 = [] ∧ (watchdogPhase s meta now).2 = meta := by
  simp [watchdogPhase, h]

/-- C10 witness: concrete defaulted meta with the flag set. -/
theorem C10_watchdog_skip_witness :
    (watchdogPhase defaultSettings
      { last_successful_run := none, watchdog_alerted := true, sent_alert_ids := [],
        deployed_version := none } 0).1 = [] ∧
    (watchdogPhase defaultSettings
      { last_successful_run := none, watchdog_alerted := true, sent_alert_ids := [],
        deployed_version := none } 0).2.watchdog_alerted = true := by
  have h := C10_watchdog_skip defaultSettings
    { last_successful_run := none, watchdog_alerted := true, sent_alert_ids := [],
      deployed_version := none } 0 rfl
  exact ⟨h.1, by rw [h.2]⟩

theorem lookup_replaceAll (k : String) (v : JValue) (doc : List (String × JValue)) :
    (doc.map (fun p => if p.1 = k then (k, v) else p)).lookup k =
      if (doc.map Prod.fst).contains k then some v else none := by
  induction doc with
  | nil => simp
  | cons p t ih =>
      simp only [List.map_cons]
      by_cases hpk : p.1 = k
      · rw [if_pos hpk]
        simp [List.lookup, List.contains_cons, hpk]
      · rw [if_neg hpk]
        have h1 : (k == p.1) = false := beq_eq_false_iff_ne.mpr (fun h => hpk h.symm)
        simp only [List.lookup, h1, ih]
        have hcc : (p.1 :: List.map Prod.fst t).contains k = (List.map Prod.fst t).contains k := by
          show (k == p.1 || (List.map Prod.fst t).elem k) = _
          rw [h1, Bool.false_or]
        simp only [hcc]

theorem lookup_append_absent (k : String) (v : JValue) (doc : List (String × JValue))
    (h : (doc.map Prod.fst).contains k = false) : (doc ++ [(k, v)]).lookup k = some v := by
  induction doc with
  | nil => simp [List.lookup]
  | cons p t ih =>
      simp only [List.map_cons, List.contains_cons, Bool.or_eq_false_iff] at h
      simp [List.lookup, h.1, ih h.2]

theorem lookup_setKey (doc : List (String × JValue)) (k : String) (v : JValue) :
    (setKey doc k v).lookup k = some v := by
  unfold setKey
  by_cases hc : (doc.map Prod.fst).contains k
  · rw [if_pos hc, lookup_replaceAll, if_pos hc]
  · rw [if_neg hc, lookup_append_absent]
    exact Bool.not_eq_true _ ▸ hc

theorem lookup_replaceAll_ne (k k' : String) (v : JValue) (doc : List (String × JValue))
    (h : k' ≠ k) :
    (doc.map (fun p => if p.1 = k then (k, v) else p)).lookup k' = doc.lookup k' := by
  induction doc with
  | nil => simp
  | cons p t ih =>
      simp only [List.map_cons]
      by_cases hpk : p.1 = k
      · rw [if_pos hpk]
        have h1 : (k' == k) = false := beq_eq_false_iff_ne.mpr h
        have h2 : (k' == p.1) = false := beq_eq_false_iff_ne.mpr (fun he => h (he.trans hpk))
        simp [List.lookup, h1, h2, ih]
      · rw [if_neg hpk]
        by_cases hk' : k' = p.1
        · simp [List.lookup, hk']
        · have h2 : (k' == p.1) = false := beq_eq_false_iff_ne.mpr hk'
          simp [List.lookup, h2, ih]

theorem lookup_append_single_ne (k k' : String) (v : JValue) (doc : List (String × JValue))
    (h : k' ≠ k) : (doc ++ [(k, v)]).lookup k' = doc.lookup k' := by
  induction doc with
  | nil => simp [List.lookup, beq_eq_false_iff_ne.mpr h]
  | cons p t ih =>
      by_cases hk' : k' = p.1
      · simp [List.lookup, hk']
      · simp [List.lookup, beq_eq_false_iff_ne.mpr hk', ih]

theorem lookup_setKey_ne (doc : List (String × JValue)) (k k' : String) (v : JValue)
    (h : k' ≠ k) : (setKey doc k v).lookup k' = doc.lookup k' := by
  unfold setKey
  by_cases hc : (doc.map Prod.fst).contains k
  · rw [if_pos hc, lookup_replaceAll_ne _ _ _ _ h]
  · rw [if_neg hc, lookup_append_single_ne _ _ _ _ h]

theorem isJObj_fixShape_self (doc : List (String × JValue)) (k : String) (dflt : JValue)
    (h : isJObj (some dflt) = true) : isJObj ((fixShape doc k dflt).lookup k) = true := by
  unfold fixShape
  split
  · rename_i h2
    exact h2
  · rw [lookup_setKey]
    exact h

theorem lookup_fixShape_ne (doc : List (String × JValue)) (k k' : String) (dflt : JValue)
    (h : k' ≠ k) : (fixShape doc k dflt).lookup k' = doc.lookup k' := by
  unfold fixShape
  split
  · rfl
  · exact lookup_setKey_ne _ _ _ _ h

/-- C2 counterexample: on a state file whose text does not parse as JSON,
`load_state` does not return a defaulted document — the `json.loads`
exception propagates (`run_monitor` has no handler around `load_state`), so
"load_state never raises" is false as stated. -/
theorem C2_load_state_counterexample :
    load_state .malformed 0 = .error "json.decoder.JSONDecodeError" := rfl

/-- C2 (amended): for every prior state-file content that is missing, empty,
or valid JSON (a non-dict value, or a dict with arbitrary — possibly
wrongly-typed — entries), `load_state` returns a document whose `targets`,
`digest` and `meta` keys are present and dict-shaped, with defaults filled in
for whatever is missing or non-dict; a missing file yields exactly the
default document with `targets = {}`.  Only malformed JSON raises. -/
theorem C2_load_state_amended (fc : FileContent) (now : DT) (h : fc ≠ .malformed) :
    ∃ doc, load_state fc now = .ok doc ∧
      isJObj (doc.lookup "targets") = true ∧
      isJObj (doc.lookup "digest") = true ∧
      isJObj (doc.lookup "meta") = true ∧
      (fc = .missing → doc = default_state now ∧ doc.lookup "targets" = some (.jobj [])) := by
  cases fc with
  | missing =>
      refine ⟨default_state now, rfl, ?_, ?_, ?_, fun _ => ⟨rfl, ?_⟩⟩ <;> rfl
  | emptyText =>
      exact ⟨default_state now, rfl, rfl, rfl, rfl, by intro hx; cases hx⟩
  | malformed => exact absurd rfl h
  | parsed v =>
      cases v with
      | jobj fields =>
          refine ⟨_, rfl, ?_, ?_, ?_, by intro hx; cases hx⟩
          · rw [lookup_fixShape_ne _ _ _ _ (by decide), lookup_fixShape_ne _ _ _ _ (by decide)]
            exact isJObj_fixShape_self _ _ _ rfl
          · rw [lookup_fixShape_ne _ _ _ _ (by decide)]
            exact isJObj_fixShape_self _ _ _ rfl
          · exact isJObj_fixShape_self _ _ _ rfl
      | jnull => exact ⟨default_state now, rfl, rfl, rfl, rfl, by intro hx; cases hx⟩
      | jbool b => exact ⟨default_state now, rfl, rfl, rfl, rfl, by intro hx; cases hx⟩
      | jnum n => exact ⟨default_state now, rfl, rfl, rfl, rfl, by intro hx; cases hx⟩
      | jstr s => exact ⟨default_state now, rfl, rfl, rfl, rfl, by intro hx; cases hx⟩
      | jarr items => exact ⟨default_state now, rfl, rfl, rfl, rfl, by intro hx; cases hx⟩

/-- C2 witness: the missing-file case yields the default document. -/
theorem C2_load_state_amended_witness :
    ∃ doc, load_state .missing 0 = .ok doc ∧
      isJObj (doc.lookup "targets") = true ∧
      isJObj (doc.lookup "digest") = true ∧
      isJObj (doc.lookup "meta") = true ∧
      (FileContent.missing = .missing → doc = default_state 0 ∧
        doc.lookup "targets" = some (.jobj [])) :=
  C2_load_state_amended .missing 0 (by intro hx; cases hx)

/-- C5: with an incident already alerted and the current scraped phase
non-operational, a repeated `check_status_page` emits no `incident_started`
event; it emits no event at all when phase and content hash are unchanged
from the stored state, and at most one `status_update`, only upon an actual
phase or content change. -/
theorem C5_status_idempotent (target : String) (urls : List String) (prev : TargetState)
    (text : String) (now : DT) (delay : Int)
    (hphase : phase_from_text text ≠ "operational" ∧ phase_from_text text ≠ "unknown")
    (halerted : prev.incident_alerted = true) :
    ((check_status_page target urls prev text now delay).events.filter
        (fun e => e.kind == "incident_started")).length = 0 ∧
    ((check_status_page target urls prev text now delay).events.filter
        (fun e => e.kind == "status_update")).length ≤ 1 ∧
    (prev.phase = phase_from_text text → prev.content_hash = hash_text text →
      (check_status_page target urls prev text now delay).events = []) ∧
    (((check_status_page target urls prev text now delay).events.filter
        (fun e => e.kind == "status_update")).length = 1 →
      phase_from_text text ≠ prev.phase ∨ hash_text text ≠ prev.content_hash) := by
  simp only [check_status_page]
  rw [dif_pos hphase, if_pos halerted]
  by_cases hch : phase_from_text text ≠ prev.phase ∨ hash_text text ≠ prev.content_hash
  · rw [if_pos hch]
    refine ⟨by simp, by simp, ?_, fun _ => hch⟩
    intro hp hh
    exact absurd hch (by simp [hp.symm, hh.symm])
  · rw [if_neg hch]
    exact ⟨by simp, by simp, fun _ _ => rfl, by simp⟩

/-- C5 witness: a second look at an unchanged major-outage page. -/
theorem C5_status_idempotent_witness :
    (check_status_page "x_status" ["u"]
      { phase := "major_outage", content_hash := hash_text "major outage",
        incident_alerted := true } "major outage" 0 0).events = [] := by
  have h := C5_status_idempotent "x_status" ["u"]
    { phase := "major_outage", content_hash := hash_text "major outage",
      incident_alerted := true } "major outage" 0 0 (by decide) rfl
  exact h.2.2.1 (by decide) rfl

/-- The forwarded `status_update` alerts never carry the `primary_silent` tag
that identifies a backup-incident alert. -/
theorem fwd_no_primary_silent (events : List ChangeEventM) :
    ((events.filter (fun e => e.kind == "status_update")).map (fun e =>
      let update_alert := event_to_alert e
      { update_alert with tags := update_alert.tags ++ ["backup_signal"] })).filter
      (fun a => a.tags.contains "primary_silent") = [] := by
  rw [List.filter_eq_nil]
  intro a ha
  rcases List.mem_map.mp ha with ⟨e, he, rfl⟩
  have hk : e.kind = "status_update" := by
    have := List.of_mem_filter he
    simpa using this
  simp [event_to_alert, hk]

/-- Backup-incident alerts add across appended alert lists. -/
theorem backupIncidentCount_append (l1 l2 : List AlertPayloadM) :
    backupIncidentCount (l1 ++ l2) = backupIncidentCount l1 + backupIncidentCount l2 := by
  simp [backupIncidentCount, List.filter_append]

/-- C4: for a status-gated target whose scraped phase is backup-relevant
non-operational: a down primary resets `primary_silent_since` and suppresses
the backup path; otherwise exactly one backup-incident alert is emitted iff
the primary silence has lasted at least the configured delay and no backup
alert is active, after which `backup_alert_active` is true — never more than
one per call, and none while an activation is already in force. -/
theorem C4_backup_gating (s : Settings) (target_key : String) (urls : List String)
    (now : DT) (current_phase : String) (events : List ChangeEventM) (tSt : TargetState)
    (hnon : is_backup_non_operational current_phase = true) :
    (is_primary_non_operational tSt.primary_state = true →
      (statusGating s target_key urls now current_phase events tSt).1.primary_silent_since =
          none ∧
      (statusGating s target_key urls now current_phase events tSt).2 = []) ∧
    (is_primary_non_operational tSt.primary_state = false →
      (backupIncidentCount (statusGating s target_key urls now current_phase events tSt).2 =
        if now - (tSt.primary_silent_since.getD now) ≥
            minutesUs s.status_backup_alert_delay_minutes ∧ tSt.backup_alert_active = false
        then 1 else 0) ∧
      (backupIncidentCount (statusGating s target_key urls now current_phase events tSt).2 = 1 →
        (statusGating s target_key urls now current_phase events tSt).1.backup_alert_active =
          true)) ∧
    backupIncidentCount (statusGating s target_key urls now current_phase events tSt).2 ≤ 1 ∧
    (tSt.backup_alert_active = true →
      backupIncidentCount (statusGating s target_key urls now current_phase events tSt).2 = 0) := by
  have hfwd0 : backupIncidentCount
      ((events.filter (fun e => e.kind == "status_update")).map (fun e =>
        let update_alert := event_to_alert e
        { update_alert with tags := update_alert.tags ++ ["backup_signal"] })) = 0 := by
    unfold backupIncidentCount
    rw [fwd_no_primary_silent events]
    rfl
  dsimp only at hfwd0
  simp only [statusGating, if_pos hnon]
  by_cases hpd : is_primary_non_operational tSt.primary_state = true
  · rw [if_pos hpd]
    exact ⟨fun _ => ⟨rfl, rfl⟩, fun hf => absurd hpd (by simp [hf]), by simp [backupIncidentCount],
      fun _ => by simp [backupIncidentCount]⟩
  · rw [if_neg hpd]
    cases hss : tSt.primary_silent_since with
    | none =>
        simp only [hss, Option.getD_none]
        by_cases hcond : now - now ≥ minutesUs s.status_backup_alert_delay_minutes ∧
            ¬ tSt.backup_alert_active
        · rw [if_pos hcond]
          have hcondF : now - now ≥ minutesUs s.status_backup_alert_delay_minutes ∧
              tSt.backup_alert_active = false := ⟨hcond.1, by simpa using hcond.2⟩
          refine ⟨fun hf => absurd hf hpd, fun _ => ⟨?_, fun _ => rfl⟩, ?_,
            fun hact => absurd hact (by simpa using hcond.2)⟩
          · rw [if_pos hcondF]
            dsimp only
            rw [if_pos rfl, backupIncidentCount_append, hfwd0]
            rfl
          · refine le_of_eq ?_
            dsimp only
            rw [if_pos rfl, backupIncidentCount_append, hfwd0]
            rfl
        · rw [if_neg hcond]
          by_cases hact : tSt.backup_alert_active = true
          · refine ⟨fun hf => absurd hf hpd, fun _ => ⟨?_, fun h1 => ?_⟩, ?_, fun _ => ?_⟩
            · dsimp only
              rw [hact, if_pos rfl, List.nil_append, hfwd0, if_neg]
              rintro ⟨_, h2⟩
              exact absurd h2 (by decide)
            · exact hact
            · dsimp only
              rw [hact, if_pos rfl, List.nil_append, hfwd0]
              decide
            · dsimp only
              rw [hact, if_pos rfl, List.nil_append]
              exact hfwd0
          · have hact2 : tSt.backup_alert_active = false := by simpa using hact
            refine ⟨fun hf => absurd hf hpd, fun _ => ⟨?_, fun h1 => ?_⟩, ?_, fun hx => absurd hx hact⟩
            · dsimp only
              rw [hact2, if_neg (by decide), if_neg]
              · rfl
              · rintro ⟨h1, _⟩
                exact hcond ⟨h1, by simp [hact2]⟩
            · dsimp only at h1
              rw [hact2, if_neg (by decide)] at h1
              exact absurd h1 (by decide)
            · dsimp only
              rw [hact2, if_neg (by decide)]
              decide
    | some ss =>
        simp only [hss, Option.getD_some]
        by_cases hcond : now - ss ≥ minutesUs s.status_backup_alert_delay_minutes ∧
            ¬ tSt.backup_alert_active
        · rw [if_pos hcond]
          have hcondF : now - ss ≥ minutesUs s.status_backup_alert_delay_minutes ∧
              tSt.backup_alert_active = false := ⟨hcond.1, by simpa using hcond.2⟩
          refine ⟨fun hf => absurd hf hpd, fun _ => ⟨?_, fun _ => rfl⟩, ?_,
            fun hact => absurd hact (by simpa using hcond.2)⟩
          · rw [if_pos hcondF]
            dsimp only
            rw [if_pos rfl, backupIncidentCount_append, hfwd0]
            rfl
          · refine le_of_eq ?_
            dsimp only
            rw [if_pos rfl, backupIncidentCount_append, hfwd0]
            rfl
        · rw [if_neg hcond]
          by_cases hact : tSt.backup_alert_active = true
          · refine ⟨fun hf => absurd hf hpd, fun _ => ⟨?_, fun h1 => ?_⟩, ?_, fun _ => ?_⟩
            · dsimp only
              rw [hact, if_pos rfl, List.nil_append, hfwd0, if_neg]
              rintro ⟨_, h2⟩
              exact absurd h2 (by decide)
            · exact hact
            · dsimp only
              rw [hact, if_pos rfl, List.nil_append, hfwd0]
              decide
            · dsimp only
              rw [hact, if_pos rfl, List.nil_append]
              exact hfwd0
          · have hact2 : tSt.backup_alert_active = false := by simpa using hact
            refine ⟨fun hf => absurd hf hpd, fun _ => ⟨?_, fun h1 => ?_⟩, ?_, fun hx => absurd hx hact⟩
            · dsimp only
              rw [hact2, if_neg (by decide), if_neg]
              · rfl
              · rintro ⟨h1, _⟩
                exact hcond ⟨h1, by simp [hact2]⟩
            · dsimp only at h1
              rw [hact2, if_neg (by decide)] at h1
              exact absurd h1 (by decide)
            · dsimp only
              rw [hact2, if_neg (by decide)]
              decide
/-- C4 witness: silent primary for 20 minutes with a 10-minute delay emits
exactly one backup-incident alert. -/
theorem C4_backup_gating_witness :
    backupIncidentCount (statusGating defaultSettings "x_status" ["u"] (minutesUs 20)
      "major_outage" []
      { primary_state := "up", primary_silent_since := some 0,
        backup_alert_active := false }).2 = 1 := by
  have h := (C4_backup_gating defaultSettings "x_status" ["u"] (minutesUs 20) "major_outage" []
    { primary_state := "up", primary_silent_since := some 0, backup_alert_active := false }
    (by decide)).2.1 rfl
  rw [h.1]
  decide

theorem watchdogPhase_none (s : Settings) (meta : MetaState) (now : DT)
    (h : meta.last_successful_run = none) : watchdogPhase s meta now = ([], meta) := by
  simp [watchdogPhase, h]

theorem watchdogPhase_sent_ids (s : Settings) (meta : MetaState) (now : DT) :
    (watchdogPhase s meta now).2.sent_alert_ids = meta.sent_alert_ids := by
  unfold watchdogPhase
  cases meta.last_successful_run with
  | none => rfl
  | some t =>
      dsimp only
      split
      · split <;> rfl
      · split <;> rfl

theorem foldl_record_change_meta (events : List ChangeEventM) (st : StateM) :
    (events.foldl record_change st).meta = st.meta := by
  induction events generalizing st with
  | nil => rfl
  | cons e t ih =>
      rw [List.foldl_cons, ih]
      rfl

theorem statusTargetStep_meta (s : Settings) (orc : RunOracles)
    (ps : List (String × String)) (now : DT) (acc : GenAcc) (kv : String × List String) :
    (statusTargetStep s orc ps now acc kv).st.meta = acc.st.meta := by
  unfold statusTargetStep
  dsimp only
  split
  · rfl
  · split
    · split <;> rfl
    · simp only [foldl_record_change_meta]

theorem tweetsTargetStep_meta (s : Settings) (orc : RunOracles) (now : DT)
    (acc : GenAcc × List ChangeEventM) (target_key : String) :
    (tweetsTargetStep s orc now acc target_key).1.st.meta = acc.1.st.meta := by
  unfold tweetsTargetStep
  dsimp only
  split
  · rfl
  · split
    · rfl
    · simp only [foldl_record_change_meta]

theorem docsTargetStep_meta (s : Settings) (orc : RunOracles) (now : DT)
    (acc : GenAcc) (target_key : String) :
    (docsTargetStep s orc now acc target_key).st.meta = acc.st.meta := by
  unfold docsTargetStep
  dsimp only
  split
  · rfl
  · split
    · rfl
    · split
      · rfl
      · simp only [foldl_record_change_meta]

theorem primaryPhase_meta (s : Settings) (orc : RunOracles) (st : StateM) (now : DT) :
    (primaryPhase s orc st now).2.meta = st.meta := by
  unfold primaryPhase
  split
  · cases orc.primary_fetch <;> rfl
  · rfl

theorem tweetsGroupPhase_st (s : Settings) (now : DT) (acc : GenAcc)
    (tweet_events : List ChangeEventM) :
    (tweetsGroupPhase s now acc tweet_events).st = acc.st := by
  unfold tweetsGroupPhase
  split
  · rfl
  · cases group_tweet_alert tweet_events now s.max_links_per_alert <;> rfl

theorem digestPhase_meta (s : Settings) (orc : RunOracles) (acc : GenAcc) (now : DT) :
    (digestPhase s orc acc now).st.meta = acc.st.meta := by
  unfold digestPhase
  dsimp only
  split <;> rfl

theorem foldl_status_meta (s : Settings) (orc : RunOracles) (ps : List (String × String))
    (now : DT) (l : List (String × List String)) (acc : GenAcc) :
    ((l.foldl (statusTargetStep s orc ps now) acc)).st.meta = acc.st.meta := by
  induction l generalizing acc with
  | nil => rfl
  | cons x t ih => rw [List.foldl_cons, ih, statusTargetStep_meta]

theorem foldl_tweets_meta (s : Settings) (orc : RunOracles) (now : DT) (l : List String)
    (acc : GenAcc × List ChangeEventM) :
    ((l.foldl (tweetsTargetStep s orc now) acc)).1.st.meta = acc.1.st.meta := by
  induction l generalizing acc with
  | nil => rfl
  | cons x t ih => rw [List.foldl_cons, ih, tweetsTargetStep_meta]

theorem foldl_docs_meta (s : Settings) (orc : RunOracles) (now : DT) (l : List String)
    (acc : GenAcc) :
    ((l.foldl (docsTargetStep s orc now) acc)).st.meta = acc.st.meta := by
  induction l generalizing acc with
  | nil => rfl
  | cons x t ih => rw [List.foldl_cons, ih, docsTargetStep_meta]

theorem runGenerate_sent_ids (s : Settings) (orc : RunOracles) (st0 : StateM) (now : DT) :
    (runGenerate s orc st0 now).2.meta.sent_alert_ids = st0.meta.sent_alert_ids := by
  unfold runGenerate
  dsimp only
  rw [digestPhase_meta, foldl_docs_meta, tweetsGroupPhase_st, foldl_tweets_meta,
    foldl_status_meta]
  dsimp only
  rw [primaryPhase_meta]
  dsimp only
  rw [watchdogPhase_sent_ids]

/-- C3 counterexample: a loaded state with an empty `targets` map but a stale
`meta.last_successful_run` is a first run by the claim's definition, yet the
run's alert list contains a watchdog alert in addition to the bootstrap alert
— the first-run override (line 606) replaces only `new_alerts`, while
`watchdog_events` are merged afterwards (line 620), so not every other
generated alert is suppressed and two deliveries are attempted. -/
theorem C3_first_run_counterexample :
    ((runGenerate defaultSettings c3Orc c3State c3Now).1.map (fun a => a.source)) =
      ["watchdog", "bootstrap"] := by
  rfl

/-- C3 (amended): on a first run (empty `targets` map), `new_alerts` is
replaced by exactly the bootstrap alert — release/version, check-derived and
digest alerts are all discarded — but watchdog alerts are still merged in;
when `meta.last_successful_run` is additionally absent (true of every state
the program itself produced with empty targets), the watchdog contributes
nothing, the run generates exactly the bootstrap alert, and with an empty
sent-id list and empty retry queue it attempts exactly that one delivery. -/
theorem C3_first_run_amended (s : Settings) (orc : RunOracles) (dorc : DeliverOracles)
    (st0 : StateM) (now : DT)
    (htargets : st0.targets = [])
    (hlsr : st0.meta.last_successful_run = none) :
    (runGenerate s orc st0 now).1 = [bootstrapAlert orc.current_version now] ∧
    (st0.meta.sent_alert_ids = [] →
      (runModel s orc dorc st0 [] now).attempted =
        [(bootstrapAlert orc.current_version now).alert_id]) := by
  have hgen : (runGenerate s orc st0 now).1 = [bootstrapAlert orc.current_version now] := by
    unfold runGenerate
    dsimp only
    rw [watchdogPhase_none s st0.meta now hlsr]
    simp only [htargets, List.isEmpty_nil, if_true, List.nil_append]
  refine ⟨hgen, fun hsent => ?_⟩
  unfold runModel deliveryPhase
  dsimp only
  rw [hgen, runGenerate_sent_ids, hsent, List.foldl_nil, List.foldl_cons, List.foldl_nil]
  unfold alertStep
  dsimp only
  rw [if_neg (by simp), if_neg (by simp)]
  cases attemptDelivery s dorc 0
  · cases next_retry_time s now 1 now <;> rfl
  · rfl

/-- C3 witness: the default (fresh) state with always-succeeding channels. -/
theorem C3_first_run_amended_witness :
    (runModel defaultSettings c3Orc ⟨fun _ => some true, fun _ => some true⟩ {} [] 0).attempted =
      [(bootstrapAlert c3Orc.current_version 0).alert_id] :=
  (C3_first_run_amended defaultSettings c3Orc ⟨fun _ => some true, fun _ => some true⟩ {} 0
    rfl rfl).2 rfl

/-! ### Delivery-phase invariants (C1) -/

theorem setAssoc_keys (l : List (String × PendingAlertM)) (k : String) (v : PendingAlertM) :
    (setAssoc l k v).map Prod.fst =
      if (l.map Prod.fst).contains k then l.map Prod.fst else l.map Prod.fst ++ [k] := by
  unfold setAssoc
  split
  · rename_i h
    clear h
    induction l with
    | nil => rfl
    | cons p t ih =>
        simp only [List.map_cons, ih]
        congr 1
        by_cases hpk : p.1 = k
        · rw [if_pos hpk]
          exact hpk.symm
        · rw [if_neg hpk]
  · simp

theorem pendingStep_shape (s : Settings) (dorc : DeliverOracles) (now : DT) (acc : DelivAcc)
    (p : PendingAlertM) :
    ((pendingStep s dorc now acc p).sent_ids = acc.sent_ids ∧
      (∃ item, (pendingStep s dorc now acc p).remaining =
        setAssoc acc.remaining p.payload.alert_id item) ∧
      ((pendingStep s dorc now acc p).attempted = acc.attempted ∨
        (pendingStep s dorc now acc p).attempted = acc.attempted ++ [p.payload.alert_id])) ∨
    ((pendingStep s dorc now acc p).sent_ids = acc.sent_ids ++ [p.payload.alert_id] ∧
      (pendingStep s dorc now acc p).remaining = acc.remaining ∧
      (pendingStep s dorc now acc p).attempted = acc.attempted ++ [p.payload.alert_id]) ∨
    ((pendingStep s dorc now acc p).sent_ids = acc.sent_ids ∧
      (pendingStep s dorc now acc p).remaining = acc.remaining ∧
      (pendingStep s dorc now acc p).attempted = acc.attempted ++ [p.payload.alert_id]) := by
  unfold pendingStep
  split
  · exact .inl ⟨rfl, ⟨p, rfl⟩, .inl rfl⟩
  · cases attemptDelivery s dorc acc.k
    · dsimp only
      cases next_retry_time s now (p.attempts + 1) p.first_failed_at
      · exact .inr (.inr ⟨rfl, rfl, rfl⟩)
      · exact .inl ⟨rfl, ⟨_, rfl⟩, .inr rfl⟩
    · exact .inr (.inl ⟨rfl, rfl, rfl⟩)

theorem alertStep_shape (s : Settings) (dorc : DeliverOracles) (now : DT) (acc : DelivAcc)
    (a : AlertPayloadM) :
    alertStep s dorc now acc a = acc ∨
    (a.alert_id ∉ acc.sent_ids ∧ a.alert_id ∉ acc.remaining.map Prod.fst ∧
      (alertStep s dorc now acc a).attempted = acc.attempted ++ [a.alert_id] ∧
      (((alertStep s dorc now acc a).sent_ids = acc.sent_ids ++ [a.alert_id] ∧
          (alertStep s dorc now acc a).remaining = acc.remaining) ∨
        ((alertStep s dorc now acc a).sent_ids = acc.sent_ids ∧
          ((alertStep s dorc now acc a).remaining = acc.remaining ∨
            ∃ item, (alertStep s dorc now acc a).remaining =
              setAssoc acc.remaining a.alert_id item)))) := by
  unfold alertStep
  split
  · exact .inl rfl
  · split
    · exact .inl rfl
    · rename_i hs hr
      have hs' : a.alert_id ∉ acc.sent_ids := by simpa using hs
      have hr' : a.alert_id ∉ acc.remaining.map Prod.fst := by simpa using hr
      cases attemptDelivery s dorc acc.k
      · dsimp only
        cases next_retry_time s now 1 now
        · exact .inr ⟨hs', hr', rfl, .inr ⟨rfl, .inl rfl⟩⟩
        · exact .inr ⟨hs', hr', rfl, .inr ⟨rfl, .inr ⟨_, rfl⟩⟩⟩
      · exact .inr ⟨hs', hr', rfl, .inl ⟨rfl, rfl⟩⟩

theorem mem_setAssoc_keys (l : List (String × PendingAlertM)) (k : String) (v : PendingAlertM)
    (q : String) (hq : q ∈ (setAssoc l k v).map Prod.fst) :
    q ∈ l.map Prod.fst ∨ q = k := by
  rw [setAssoc_keys] at hq
  by_cases hc : (l.map Prod.fst).contains k
  · rw [if_pos hc] at hq
    exact .inl hq
  · rw [if_neg hc] at hq
    rcases List.mem_append.mp hq with h | h
    · exact .inl h
    · exact .inr (by simpa using h)

theorem nodup_setAssoc_keys (l : List (String × PendingAlertM)) (k : String)
    (v : PendingAlertM) (hnd : (l.map Prod.fst).Nodup) (hk : k ∉ l.map Prod.fst) :
    ((setAssoc l k v).map Prod.fst).Nodup := by
  rw [setAssoc_keys]
  by_cases hc : (l.map Prod.fst).contains k
  · rw [if_pos hc]
    exact hnd
  · rw [if_neg hc]
    refine List.Nodup.append hnd (List.nodup_singleton k) ?_
    intro a ha hb
    exact hk ((List.mem_singleton.mp hb) ▸ ha)

theorem pendingFold_inv (s : Settings) (dorc : DeliverOracles) (now : DT) :
    ∀ (pending : List PendingAlertM) (acc : DelivAcc),
      (∀ p ∈ pending, p.payload.alert_id ∉ acc.sent_ids) →
      (∀ p ∈ pending, p.payload.alert_id ∉ acc.remaining.map Prod.fst) →
      (pending.map (fun p => p.payload.alert_id)).Nodup →
      (∀ q ∈ acc.remaining.map Prod.fst, q ∉ acc.sent_ids) →
      (acc.remaining.map Prod.fst).Nodup →
      (∀ x ∈ (pending.foldl (pendingStep s dorc now) acc).attempted,
        x ∈ acc.attempted ∨ x ∈ pending.map (fun p => p.payload.alert_id)) ∧
      (∀ x ∈ acc.sent_ids, x ∈ (pending.foldl (pendingStep s dorc now) acc).sent_ids) ∧
      (∀ q ∈ (pending.foldl (pendingStep s dorc now) acc).remaining.map Prod.fst,
        q ∉ (pending.foldl (pendingStep s dorc now) acc).sent_ids) ∧
      ((pending.foldl (pendingStep s dorc now) acc).remaining.map Prod.fst).Nodup := by
  intro pending
  induction pending with
  | nil =>
      intro acc _ _ _ h4 h5
      exact ⟨fun x hx => .inl hx, fun x hx => hx, h4, h5⟩
  | cons p t ih =>
      intro acc h1 h2 h3 h4 h5
      rw [List.foldl_cons]
      have hpid_sent : p.payload.alert_id ∉ acc.sent_ids := h1 p (by simp)
      have hpid_rem : p.payload.alert_id ∉ acc.remaining.map Prod.fst := h2 p (by simp)
      have hpid_t : p.payload.alert_id ∉ t.map (fun q => q.payload.alert_id) :=
        (List.nodup_cons.mp (by simpa using h3)).1
      have h3t : (t.map (fun q => q.payload.alert_id)).Nodup :=
        (List.nodup_cons.mp (by simpa using h3)).2
      rcases pendingStep_shape s dorc now acc p with
        ⟨hsent, ⟨item, hrem⟩, hatt⟩ | ⟨hsent, hrem, hatt⟩ | ⟨hsent, hrem, hatt⟩
      · have step1 : ∀ q ∈ t, q.payload.alert_id ∉ (pendingStep s dorc now acc p).sent_ids := by
          intro q hq
          rw [hsent]
          exact h1 q (by simp [hq])
        have step2 : ∀ q ∈ t,
            q.payload.alert_id ∉ (pendingStep s dorc now acc p).remaining.map Prod.fst := by
          intro q hq hmem
          rw [hrem] at hmem
          rcases mem_setAssoc_keys _ _ _ _ hmem with h | h
          · exact h2 q (by simp [hq]) h
          · exact hpid_t (h ▸ List.mem_map.mpr ⟨q, hq, rfl⟩)
        have step4 : ∀ q ∈ (pendingStep s dorc now acc p).remaining.map Prod.fst,
            q ∉ (pendingStep s dorc now acc p).sent_ids := by
          intro q hq
          rw [hsent]
          rw [hrem] at hq
          rcases mem_setAssoc_keys _ _ _ _ hq with h | h
          · exact h4 q h
          · exact h ▸ hpid_sent
        have step5 : ((pendingStep s dorc now acc p).remaining.map Prod.fst).Nodup := by
          rw [hrem]
          exact nodup_setAssoc_keys _ _ _ h5 hpid_rem
        obtain ⟨c1, c2, c3, c4⟩ := ih (pendingStep s dorc now acc p) step1 step2 h3t step4 step5
        refine ⟨?_, ?_, c3, c4⟩
        · intro x hx
          rcases c1 x hx with h | h
          · rcases hatt with ha | ha
            · rw [ha] at h
              exact .inl h
            · rw [ha] at h
              rcases List.mem_append.mp h with h | h
              · exact .inl h
              · exact .inr (by simpa using .inl (by simpa using h))
          · exact .inr (by simp [h])
        · intro x hx
          exact c2 x (by rw [hsent]; exact hx)
      · have step1 : ∀ q ∈ t, q.payload.alert_id ∉ (pendingStep s dorc now acc p).sent_ids := by
          intro q hq
          rw [hsent]
          intro hmem
          rcases List.mem_append.mp hmem with h | h
          · exact h1 q (by simp [hq]) h
          · exact hpid_t ((by simpa using h : q.payload.alert_id = p.payload.alert_id) ▸
              List.mem_map.mpr ⟨q, hq, rfl⟩)
        have step2 : ∀ q ∈ t,
            q.payload.alert_id ∉ (pendingStep s dorc now acc p).remaining.map Prod.fst := by
          intro q hq
          rw [hrem]
          exact h2 q (by simp [hq])
        have step4 : ∀ q ∈ (pendingStep s dorc now acc p).remaining.map Prod.fst,
            q ∉ (pendingStep s dorc now acc p).sent_ids := by
          intro q hq
          rw [hsent]
          rw [hrem] at hq
          intro hmem
          rcases List.mem_append.mp hmem with h | h
          · exact h4 q hq h
          · exact hpid_rem ((by simpa using h : q = p.payload.alert_id) ▸ hq)
        have step5 : ((pendingStep s dorc now acc p).remaining.map Prod.fst).Nodup := by
          rw [hrem]
          exact h5
        obtain ⟨c1, c2, c3, c4⟩ := ih (pendingStep s dorc now acc p) step1 step2 h3t step4 step5
        refine ⟨?_, ?_, c3, c4⟩
        · intro x hx
          rcases c1 x hx with h | h
          · rw [hatt] at h
            rcases List.mem_append.mp h with h | h
            · exact .inl h
            · exact .inr (by simpa using .inl (by simpa using h))
          · exact .inr (by simp [h])
        · intro x hx
          exact c2 x (by rw [hsent]; exact List.mem_append.mpr (.inl hx))
      · have step1 : ∀ q ∈ t, q.payload.alert_id ∉ (pendingStep s dorc now acc p).sent_ids := by
          intro q hq
          rw [hsent]
          exact h1 q (by simp [hq])
        have step2 : ∀ q ∈ t,
            q.payload.alert_id ∉ (pendingStep s dorc now acc p).remaining.map Prod.fst := by
          intro q hq
          rw [hrem]
          exact h2 q (by simp [hq])
        have step4 : ∀ q ∈ (pendingStep s dorc now acc p).remaining.map Prod.fst,
            q ∉ (pendingStep s dorc now acc p).sent_ids := by
          intro q hq
          rw [hsent]
          rw [hrem] at hq
          exact h4 q hq
        have step5 : ((pendingStep s dorc now acc p).remaining.map Prod.fst).Nodup := by
          rw [hrem]
          exact h5
        obtain ⟨c1, c2, c3, c4⟩ := ih (pendingStep s dorc now acc p) step1 step2 h3t step4 step5
        refine ⟨?_, ?_, c3, c4⟩
        · intro x hx
          rcases c1 x hx with h | h
          · rw [hatt] at h
            rcases List.mem_append.mp h with h | h
            · exact .inl h
            · exact .inr (by simpa using .inl (by simpa using h))
          · exact .inr (by simp [h])
        · intro x hx
          exact c2 x (by rw [hsent]; exact hx)

theorem alertFold_inv (s : Settings) (dorc : DeliverOracles) (now : DT) :
    ∀ (alerts : List AlertPayloadM) (acc : DelivAcc),
      (∀ q ∈ acc.remaining.map Prod.fst, q ∉ acc.sent_ids) →
      (acc.remaining.map Prod.fst).Nodup →
      (∀ x ∈ (alerts.foldl (alertStep s dorc now) acc).attempted,
        x ∈ acc.attempted ∨ x ∉ acc.sent_ids) ∧
      (∀ x ∈ acc.sent_ids, x ∈ (alerts.foldl (alertStep s dorc now) acc).sent_ids) ∧
      (∀ q ∈ (alerts.foldl (alertStep s dorc now) acc).remaining.map Prod.fst,
        q ∉ (alerts.foldl (alertStep s dorc now) acc).sent_ids) ∧
      ((alerts.foldl (alertStep s dorc now) acc).remaining.map Prod.fst).Nodup := by
  intro alerts
  induction alerts with
  | nil =>
      intro acc h4 h5
      exact ⟨fun x hx => .inl hx, fun x hx => hx, h4, h5⟩
  | cons a t ih =>
      intro acc h4 h5
      rw [List.foldl_cons]
      rcases alertStep_shape s dorc now acc a with heq | ⟨hns, hnr, hatt, hrest⟩
      · rw [heq]
        exact ih acc h4 h5
      · have hAsent : ∀ x ∈ acc.sent_ids, x ∈ (alertStep s dorc now acc a).sent_ids := by
          intro x hx
          rcases hrest with ⟨hsent, _⟩ | ⟨hsent, _⟩
          · rw [hsent]
            exact List.mem_append.mpr (.inl hx)
          · rw [hsent]
            exact hx
        have step4 : ∀ q ∈ (alertStep s dorc now acc a).remaining.map Prod.fst,
            q ∉ (alertStep s dorc now acc a).sent_ids := by
          intro q hq
          rcases hrest with ⟨hsent, hrem⟩ | ⟨hsent, hrem⟩
          · rw [hsent]
            rw [hrem] at hq
            intro hmem
            rcases List.mem_append.mp hmem with h | h
            · exact h4 q hq h
            · exact hnr ((by simpa using h : q = a.alert_id) ▸ hq)
          · rw [hsent]
            rcases hrem with hrem | ⟨item, hrem⟩
            · rw [hrem] at hq
              exact h4 q hq
            · rw [hrem] at hq
              rcases mem_setAssoc_keys _ _ _ _ hq with h | h
              · exact h4 q h
              · exact h ▸ hns
        have step5 : ((alertStep s dorc now acc a).remaining.map Prod.fst).Nodup := by
          rcases hrest with ⟨_, hrem⟩ | ⟨_, hrem⟩
          · rw [hrem]
            exact h5
          · rcases hrem with hrem | ⟨item, hrem⟩
            · rw [hrem]
              exact h5
            · rw [hrem]
              exact nodup_setAssoc_keys _ _ _ h5 hnr
        obtain ⟨c1, c2, c3, c4⟩ := ih (alertStep s dorc now acc a) step4 step5
        refine ⟨?_, fun x hx => c2 x (hAsent x hx), c3, c4⟩
        intro x hx
        rcases c1 x hx with h | h
        · rw [hatt] at h
          rcases List.mem_append.mp h with h | h
          · exact .inl h
          · exact .inr ((by simpa using h : x = a.alert_id) ▸ hns)
        · refine .inr fun hxs => h (hAsent x hxs)

/-- Membership in the trimmed sent-id list implies membership before the trim. -/
theorem mem_trim_sent_ids (ids : List String) (limit : Nat) (x : String)
    (hx : x ∈ trim_sent_ids ids limit) : x ∈ ids := by
  unfold trim_sent_ids at hx
  split at hx
  · exact hx
  · exact List.mem_of_mem_drop hx

/-- C1: provided the persisted queue's ids are disjoint from the persisted
sent-id set and duplicate-free (both invariants the delivery phase itself
re-establishes, third and fourth conjuncts), no delivery attempt of the run
— due queue items and freshly generated alerts alike — is made for an alert
id that is in the persisted sent set. -/
theorem C1_at_most_once (s : Settings) (dorc : DeliverOracles) (now : DT)
    (pending_models : List PendingAlertM) (all_alerts : List AlertPayloadM) (st : StateM)
    (hdisj : ∀ p ∈ pending_models, p.payload.alert_id ∉ st.meta.sent_alert_ids)
    (hnodup : (pending_models.map (fun p => p.payload.alert_id)).Nodup) :
    (∀ x ∈ (deliveryPhase s dorc now pending_models all_alerts st).attempted,
      x ∉ st.meta.sent_alert_ids) ∧
    (∀ q ∈ (deliveryPhase s dorc now pending_models all_alerts st).remaining_pending.map
        Prod.fst,
      q ∉ (deliveryPhase s dorc now pending_models all_alerts st).state.meta.sent_alert_ids) ∧
    ((deliveryPhase s dorc now pending_models all_alerts st).remaining_pending.map
        Prod.fst).Nodup := by
  unfold deliveryPhase
  dsimp only
  obtain ⟨p1, p2, p3, p4⟩ := pendingFold_inv s dorc now pending_models
    { sent_ids := st.meta.sent_alert_ids, alerts_sent := st.digest.alerts_sent,
      remaining := [], dropped := [], attempted := [], k := 0 }
    hdisj (by intro p _ h; simp at h) hnodup (by intro q h; simp at h) (by simp)
  obtain ⟨a1, a2, a3, a4⟩ := alertFold_inv s dorc now all_alerts _ p3 p4
  refine ⟨?_, ?_, a4⟩
  · intro x hx
    rcases a1 x hx with h | h
    · rcases p1 x h with h' | h'
      · simp at h'
      · rcases List.mem_map.mp h' with ⟨p, hp, rfl⟩
        exact hdisj p hp
    · intro hxs
      exact h (p2 x hxs)
  · intro q hq hmem
    exact a3 q hq (mem_trim_sent_ids _ _ _ hmem)

/-- C1 witness: a persisted set containing `y`, a queue holding `x`, a
regenerated alert with the already-sent id `y` — only `x` is attempted, and
the already-sent `y` is not. -/
theorem C1_at_most_once_witness :
    "y" ∉ (deliveryPhase defaultSettings ⟨fun _ => some true, fun _ => some true⟩ 0
      [{ payload := { alert_id := "x", source := "s", level := "info", title := "t",
                      body := "b", links := [], created_at := 0, tags := [] },
         attempts := 1, first_failed_at := 0, next_retry_at := 0 }]
      [{ alert_id := "y", source := "s", level := "info", title := "t", body := "b",
         links := [], created_at := 0, tags := [] }]
      { targets := [], digest := {}, meta := { sent_alert_ids := ["y"] } }).attempted ∧
    (deliveryPhase defaultSettings ⟨fun _ => some true, fun _ => some true⟩ 0
      [{ payload := { alert_id := "x", source := "s", level := "info", title := "t",
                      body := "b", links := [], created_at := 0, tags := [] },
         attempts := 1, first_failed_at := 0, next_retry_at := 0 }]
      [{ alert_id := "y", source := "s", level := "info", title := "t", body := "b",
         links := [], created_at := 0, tags := [] }]
      { targets := [], digest := {}, meta := { sent_alert_ids := ["y"] } }).attempted =
      ["x"] :=
  ⟨fun hmem =>
    (C1_at_most_once defaultSettings ⟨fun _ => some true, fun _ => some true⟩ 0
      [{ payload := { alert_id := "x", source := "s", level := "info", title := "t",
                      body := "b", links := [], created_at := 0, tags := [] },
         attempts := 1, first_failed_at := 0, next_retry_at := 0 }]
      [{ alert_id := "y", source := "s", level := "info", title := "t", body := "b",
         links := [], created_at := 0, tags := [] }]
      { targets := [], digest := {}, meta := { sent_alert_ids := ["y"] } }
      (by intro p hp; simp at hp; simp [hp]) (by simp)).1 "y" hmem (by simp),
   by rfl⟩

/-! ### Calendar lemmas (C8) -/

theorem daysInYear_pos (y : Nat) : 0 < daysInYear y := by
  unfold daysInYear
  split <;> omega

theorem daysInMonth_pos (y m : Nat) : 0 < daysInMonth y m := by
  unfold daysInMonth
  repeat' split
  all_goals omega

theorem daysInMonth_le_31 (y m : Nat) : daysInMonth y m ≤ 31 := by
  unfold daysInMonth
  repeat' split
  all_goals omega

theorem yearsDays_add (y a b : Nat) :
    yearsDays y (a + b) = yearsDays y a + yearsDays (y + a) b := by
  induction a generalizing y with
  | zero => simp [yearsDays]
  | succ a ih =>
      have h1 : a + 1 + b = (a + b) + 1 := by omega
      rw [h1]
      show daysInYear y + yearsDays (y + 1) (a + b) = _
      rw [ih (y + 1)]
      show daysInYear y + (yearsDays (y + 1) a + yearsDays (y + 1 + a) b) =
        (daysInYear y + yearsDays (y + 1) a) + yearsDays (y + (a + 1)) b
      have h2 : y + 1 + a = y + (a + 1) := by omega
      rw [h2]
      omega

theorem yearsDays_succ_right (y k : Nat) :
    yearsDays y (k + 1) = yearsDays y k + daysInYear (y + k) := by
  rw [yearsDays_add y k 1]
  show _ = yearsDays y k + daysInYear (y + k)
  have : yearsDays (y + k) 1 = daysInYear (y + k) := by
    show daysInYear (y + k) + yearsDays (y + k + 1) 0 = _
    rfl
  rw [this]

theorem yearsDays_one_closed (k : Nat) :
    yearsDays 1 k = 365 * k + (k / 4 + k / 400 - k / 100) := by
  induction k with
  | zero => rfl
  | succ k ih =>
      rw [yearsDays_succ_right, ih]
      have hy : (1 + k : Nat) = k + 1 := by omega
      rw [hy]
      by_cases h4 : (k + 1) % 4 = 0 <;> by_cases h100 : (k + 1) % 100 = 0 <;>
        by_cases h400 : (k + 1) % 400 = 0 <;>
        simp [daysInYear, isLeap, h4, h100, h400] <;> omega

theorem yearsDays_one_mono {a b : Nat} (h : a ≤ b) : yearsDays 1 a ≤ yearsDays 1 b := by
  have := yearsDays_add 1 a (b - a)
  rw [show a + (b - a) = b from by omega] at this
  omega

theorem epochDays_eq : epochDays = 719162 := by
  show daysFromCivil 1970 1 1 = 719162
  unfold daysFromCivil
  rw [show (1970 - 1 : Nat) = 1969 from rfl, yearsDays_one_closed]
  rfl

theorem yearsDays_9999 : yearsDays 1 9999 = 3652059 := by
  rw [yearsDays_one_closed]

theorem monthsAcc_succ (y m : Nat) (h : 1 ≤ m) :
    monthsAcc y (m + 1) = monthsAcc y m + daysInMonth y m := by
  show (if m = 0 then 0 else monthsAcc y m + daysInMonth y m) = _
  rw [if_neg (by omega)]

theorem monthsAcc_13 (y : Nat) : monthsAcc y 13 = daysInYear y := by
  by_cases h : isLeap y = true <;>
    simp [monthsAcc, daysInMonth, daysInYear, h]

theorem peelYears_spec : ∀ (fuel y n : Nat), n < fuel →
    yearsDays y ((peelYears fuel y n).1 - y) + (peelYears fuel y n).2 = n ∧
    (peelYears fuel y n).2 < daysInYear (peelYears fuel y n).1 ∧
    y ≤ (peelYears fuel y n).1 := by
  intro fuel
  induction fuel with
  | zero => intro y n h; omega
  | succ fuel ih =>
      intro y n h
      by_cases hlt : n < daysInYear y
      · have hbase : peelYears (fuel + 1) y n = (y, n) := by
          show (if n < daysInYear y then (y, n) else peelYears fuel (y + 1) (n - daysInYear y))
            = (y, n)
          rw [if_pos hlt]
        rw [hbase]
        simpa [yearsDays] using hlt
      · have hrec : peelYears (fuel + 1) y n = peelYears fuel (y + 1) (n - daysInYear y) := by
          show (if n < daysInYear y then (y, n) else peelYears fuel (y + 1) (n - daysInYear y))
            = _
          rw [if_neg hlt]
        rw [hrec]
        have hdy := daysInYear_pos y
        obtain ⟨ih1, ih2, ih3⟩ := ih (y + 1) (n - daysInYear y) (by omega)
        refine ⟨?_, ih2, by omega⟩
        have hk : (peelYears fuel (y + 1) (n - daysInYear y)).1 - y =
            ((peelYears fuel (y + 1) (n - daysInYear y)).1 - (y + 1)) + 1 := by omega
        rw [hk]
        rw [show ∀ k, yearsDays y (k + 1) = daysInYear y + yearsDays (y + 1) k from
          fun k => rfl]
        omega

theorem peelMonths_spec : ∀ (fuel y m n : Nat), 1 ≤ m → m + fuel = 13 →
    n + monthsAcc y m < daysInYear y →
    monthsAcc y (peelMonths y fuel m n).1 + (peelMonths y fuel m n).2 =
      monthsAcc y m + n ∧
    (peelMonths y fuel m n).2 < daysInMonth y (peelMonths y fuel m n).1 ∧
    m ≤ (peelMonths y fuel m n).1 ∧ (peelMonths y fuel m n).1 ≤ 12 := by
  intro fuel
  induction fuel with
  | zero =>
      intro y m n h1 h2 h3
      have hm : m = 13 := by omega
      subst hm
      have h13 := monthsAcc_13 y
      have : False := by omega
      exact this.elim
  | succ fuel ih =>
      intro y m n h1 h2 h3
      by_cases hlt : n < daysInMonth y m
      · have hbase : peelMonths y (fuel + 1) m n = (m, n) := by
          show (if n < daysInMonth y m then (m, n)
            else peelMonths y fuel (m + 1) (n - daysInMonth y m)) = (m, n)
          rw [if_pos hlt]
        rw [hbase]
        exact ⟨rfl, hlt, le_refl m, by omega⟩
      · have hrec : peelMonths y (fuel + 1) m n =
            peelMonths y fuel (m + 1) (n - daysInMonth y m) := by
          show (if n < daysInMonth y m then (m, n)
            else peelMonths y fuel (m + 1) (n - daysInMonth y m)) = _
          rw [if_neg hlt]
        rw [hrec]
        have hm12 : m ≤ 12 := by omega
        have hdm := daysInMonth_pos y m
        have hmacc := monthsAcc_succ y m h1
        have hm11 : m ≤ 11 := by
          by_contra hc
          have hm : m = 12 := by omega
          subst hm
          have h13 := monthsAcc_13 y
          have h12acc := monthsAcc_succ y 12 (by omega)
          norm_num at h12acc
          omega
        obtain ⟨ih1, ih2, ih3, ih4⟩ := ih y (m + 1) (n - daysInMonth y m)
          (by omega) (by omega) (by omega)
        exact ⟨by omega, ih2, by omega, ih4⟩

theorem civilFromDays_spec (n : Nat) :
    daysFromCivil (civilFromDays n).1 (civilFromDays n).2.1 (civilFromDays n).2.2 = n ∧
    1 ≤ (civilFromDays n).1 ∧
    1 ≤ (civilFromDays n).2.1 ∧ (civilFromDays n).2.1 ≤ 12 ∧
    1 ≤ (civilFromDays n).2.2 ∧ (civilFromDays n).2.2 ≤ 31 ∧
    (n < yearsDays 1 9999 → (civilFromDays n).1 ≤ 9999) := by
  obtain ⟨hy1, hy2, hy3⟩ := peelYears_spec (n + 1) 1 n (by omega)
  have hpm := peelMonths_spec 12 (peelYears (n + 1) 1 n).1 1 (peelYears (n + 1) 1 n).2
    (by omega) (by omega) (by simpa [monthsAcc] using hy2)
  obtain ⟨hm1, hm2, hm3, hm4⟩ := hpm
  have hdm31 := daysInMonth_le_31 (peelYears (n + 1) 1 n).1
    (peelMonths (peelYears (n + 1) 1 n).1 12 1 (peelYears (n + 1) 1 n).2).1
  unfold civilFromDays daysFromCivil
  dsimp only
  refine ⟨?_, hy3, hm3, hm4, by omega, by omega, ?_⟩
  · have hz : monthsAcc (peelYears (n + 1) 1 n).1 1 = 0 := rfl
    omega
  · intro hn
    by_contra hc
    have h10000 : 9999 ≤ (peelYears (n + 1) 1 n).1 - 1 := by omega
    have := yearsDays_one_mono h10000
    omega

theorem length_padDec (w : Nat) : ∀ n, (padDec w n).length = w := by
  induction w with
  | zero => intro n; rfl
  | succ w ih =>
      intro n
      show (padDec w (n / 10) ++ [digitChar (n % 10)]).length = w + 1
      simp [ih]

theorem digitChar_toNat (d : Nat) (h : d < 10) : (digitChar d).toNat = 48 + d := by
  interval_cases d <;> decide

theorem decode_append (l : List Char) (c : Char) :
    decodeDec (l ++ [c]) = decodeDec l * 10 + (c.toNat - 48) := by
  simp [decodeDec, List.foldl_append]

theorem decode_padDec (w : Nat) : ∀ n, n < 10 ^ w → decodeDec (padDec w n) = n := by
  induction w with
  | zero =>
      intro n h
      simp [padDec, decodeDec]
      omega
  | succ w ih =>
      intro n h
      show decodeDec (padDec w (n / 10) ++ [digitChar (n % 10)]) = n
      have hp : (10 : Nat) ^ (w + 1) = 10 ^ w * 10 := pow_succ 10 w
      rw [decode_append, ih (n / 10) (by omega), digitChar_toNat (n % 10) (by omega)]
      omega

theorem padDec_inj (w a b : Nat) (ha : a < 10 ^ w) (hb : b < 10 ^ w)
    (h : padDec w a = padDec w b) : a = b := by
  have hc := congrArg decodeDec h
  rwa [decode_padDec w a ha, decode_padDec w b hb] at hc

theorem mem_padDec (w : Nat) : ∀ n c, c ∈ padDec w n → ∃ d, d < 10 ∧ c = digitChar d := by
  induction w with
  | zero => intro n c h; simp [padDec] at h
  | succ w ih =>
      intro n c h
      rw [show padDec (w + 1) n = padDec w (n / 10) ++ [digitChar (n % 10)] from rfl] at h
      rcases List.mem_append.mp h with h | h
      · exact ih _ _ h
      · exact ⟨n % 10, by omega, by simpa using h⟩

theorem digitChar_ne_pipe (d : Nat) (h : d < 10) : digitChar d ≠ '|' := by
  interval_cases d <;> decide

theorem isoChars_minute_decomp (t : Int) (hmod : t % (60000000 : Int) = 0)
    (hv : -62135596800000000 ≤ t ∧ t < 253402300800000000) :
    ∃ y mo d hh mm n : Nat,
      isoChars t = padDec 4 y ++ [Char.ofNat 45] ++ padDec 2 mo ++ [Char.ofNat 45] ++
        padDec 2 d ++ [Char.ofNat 84] ++ padDec 2 hh ++ [Char.ofNat 58] ++ padDec 2 mm ++
        [Char.ofNat 58] ++ padDec 2 0 ++
        [Char.ofNat 43, Char.ofNat 48, Char.ofNat 48, Char.ofNat 58, Char.ofNat 48,
          Char.ofNat 48] ∧
      y ≤ 9999 ∧ mo ≤ 99 ∧ d ≤ 99 ∧ hh ≤ 99 ∧ mm ≤ 99 ∧
      daysFromCivil y mo d = n ∧
      t = 86400000000 * (n : Int) + ((hh * 60 + mm : Nat) : Int) * 60000000 -
        62135596800000000 := by
  obtain ⟨hv1, hv2⟩ := hv
  have hTshift : (epochDays : Int) * 86400000000 = 62135596800000000 := by
    rw [epochDays_eq]
    norm_num
  unfold isoChars
  simp only [usPerDay]
  rw [hTshift]
  have husec : ((t + 62135596800000000) % 86400000000).toNat % 1000000 = 0 := by omega
  have hss : ((t + 62135596800000000) % 86400000000).toNat / 1000000 % 60 = 0 := by omega
  have hn : ((t + 62135596800000000) / 86400000000).toNat < 3652059 := by omega
  obtain ⟨hc1, hc2, hc3, hc4, hc5, hc6, hc7⟩ :=
    civilFromDays_spec ((t + 62135596800000000) / 86400000000).toNat
  have hy : (civilFromDays ((t + 62135596800000000) / 86400000000).toNat).1 ≤ 9999 := by
    refine hc7 ?_
    rw [yearsDays_9999]
    exact hn
  refine ⟨(civilFromDays ((t + 62135596800000000) / 86400000000).toNat).1,
    (civilFromDays ((t + 62135596800000000) / 86400000000).toNat).2.1,
    (civilFromDays ((t + 62135596800000000) / 86400000000).toNat).2.2,
    ((t + 62135596800000000) % 86400000000).toNat / 1000000 / 60 / 60,
    ((t + 62135596800000000) % 86400000000).toNat / 1000000 / 60 % 60,
    ((t + 62135596800000000) / 86400000000).toNat,
    ?_, hy, by omega, by omega, by omega, by omega, hc1, ?_⟩
  · rw [if_pos husec, hss]
    simp only [List.append_nil]
  · omega

theorem string_data_inj (a b : String) (h : a.data = b.data) : a = b := by
  cases a; cases b; exact congrArg String.mk (by simpa using h)

theorem split_at_sep : ∀ (l1 : List Char) (l2 r1 r2 : List Char),
    Char.ofNat 124 ∉ l1 → Char.ofNat 124 ∉ l2 →
    l1 ++ Char.ofNat 124 :: r1 = l2 ++ Char.ofNat 124 :: r2 →
    l1 = l2 ∧ r1 = r2 := by
  intro l1
  induction l1 with
  | nil =>
      intro l2 r1 r2 _ h2 h
      cases l2 with
      | nil => simpa using h
      | cons c l2 =>
          simp only [List.nil_append, List.cons_append, List.cons.injEq] at h
          obtain ⟨hc, -⟩ := h
          subst hc
          exact absurd (List.mem_cons_self _ _) h2
  | cons c l1 ih =>
      intro l2 r1 r2 h1 h2 h
      cases l2 with
      | nil =>
          simp only [List.cons_append, List.nil_append, List.cons.injEq] at h
          obtain ⟨hc, -⟩ := h
          subst hc
          exact absurd (List.mem_cons_self _ _) h1
      | cons d l2 =>
          simp only [List.cons_append, List.cons.injEq] at h
          obtain ⟨hcd, h⟩ := h
          have h1' : Char.ofNat 124 ∉ l1 := fun hx => h1 (List.mem_cons_of_mem c hx)
          have h2' : Char.ofNat 124 ∉ l2 := fun hx => h2 (List.mem_cons_of_mem d hx)
          obtain ⟨he, hr⟩ := ih l2 r1 r2 h1' h2' h
          exact ⟨by rw [hcd, he], hr⟩

theorem truncMin_mod (t : Int) : truncMin t % (60000000 : Int) = 0 := by
  unfold truncMin
  simp only [usPerMinute]
  omega

theorem truncMin_bounds (t : Int) (h : validDT t) :
    -62135596800000000 ≤ truncMin t ∧ truncMin t < 253402300800000000 := by
  unfold validDT at h
  unfold truncMin
  simp only [usPerMinute]
  omega

theorem isoChars_inj_minute (t1 t2 : Int)
    (hmod1 : t1 % (60000000 : Int) = 0) (hmod2 : t2 % (60000000 : Int) = 0)
    (hv1 : -62135596800000000 ≤ t1 ∧ t1 < 253402300800000000)
    (hv2 : -62135596800000000 ≤ t2 ∧ t2 < 253402300800000000)
    (h : isoChars t1 = isoChars t2) : t1 = t2 := by
  obtain ⟨y1, mo1, d1, hh1, mm1, n1, he1, hy1, hmo1, hd1, hhh1, hmm1, hn1, ht1⟩ :=
    isoChars_minute_decomp t1 hmod1 hv1
  obtain ⟨y2, mo2, d2, hh2, mm2, n2, he2, hy2, hmo2, hd2, hhh2, hmm2, hn2, ht2⟩ :=
    isoChars_minute_decomp t2 hmod2 hv2
  rw [he1, he2] at h
  simp only [List.append_assoc, List.cons_append, List.nil_append] at h
  have hl4 : (padDec 4 y1).length = (padDec 4 y2).length := by
    rw [length_padDec, length_padDec]
  obtain ⟨hpy, h⟩ := List.append_inj h hl4
  simp only [List.cons.injEq, true_and] at h
  have hl2a : (padDec 2 mo1).length = (padDec 2 mo2).length := by
    rw [length_padDec, length_padDec]
  obtain ⟨hpmo, h⟩ := List.append_inj h hl2a
  simp only [List.cons.injEq, true_and] at h
  have hl2b : (padDec 2 d1).length = (padDec 2 d2).length := by
    rw [length_padDec, length_padDec]
  obtain ⟨hpd, h⟩ := List.append_inj h hl2b
  simp only [List.cons.injEq, true_and] at h
  have hl2c : (padDec 2 hh1).length = (padDec 2 hh2).length := by
    rw [length_padDec, length_padDec]
  obtain ⟨hphh, h⟩ := List.append_inj h hl2c
  simp only [List.cons.injEq, true_and] at h
  have hl2d : (padDec 2 mm1).length = (padDec 2 mm2).length := by
    rw [length_padDec, length_padDec]
  obtain ⟨hpmm, h⟩ := List.append_inj h hl2d
  have hyv : y1 = y2 :=
    padDec_inj 4 y1 y2 (Nat.lt_of_le_of_lt hy1 (by norm_num))
      (Nat.lt_of_le_of_lt hy2 (by norm_num)) hpy
  have hmov : mo1 = mo2 :=
    padDec_inj 2 mo1 mo2 (Nat.lt_of_le_of_lt hmo1 (by norm_num))
      (Nat.lt_of_le_of_lt hmo2 (by norm_num)) hpmo
  have hdv : d1 = d2 :=
    padDec_inj 2 d1 d2 (Nat.lt_of_le_of_lt hd1 (by norm_num))
      (Nat.lt_of_le_of_lt hd2 (by norm_num)) hpd
  have hhhv : hh1 = hh2 :=
    padDec_inj 2 hh1 hh2 (Nat.lt_of_le_of_lt hhh1 (by norm_num))
      (Nat.lt_of_le_of_lt hhh2 (by norm_num)) hphh
  have hmmv : mm1 = mm2 :=
    padDec_inj 2 mm1 mm2 (Nat.lt_of_le_of_lt hmm1 (by norm_num))
      (Nat.lt_of_le_of_lt hmm2 (by norm_num)) hpmm
  subst hyv hmov hdv hhhv hmmv
  omega

theorem rawId_inj (s1 m1 s2 m2 : String) (t1 t2 : Int)
    (hs1 : Char.ofNat 124 ∉ s1.data) (hm1 : Char.ofNat 124 ∉ m1.data)
    (hs2 : Char.ofNat 124 ∉ s2.data) (hm2 : Char.ofNat 124 ∉ m2.data)
    (hv1 : validDT t1) (hv2 : validDT t2)
    (h : rawId s1 m1 t1 = rawId s2 m2 t2) :
    s1 = s2 ∧ m1 = m2 ∧ truncMin t1 = truncMin t2 := by
  have hd := congrArg String.data h
  unfold rawId at hd
  have hpipe : ("|" : String).data = [Char.ofNat 124] := by decide
  have hiso1 : (isoformat (truncMin t1)).data = isoChars (truncMin t1) := rfl
  have hiso2 : (isoformat (truncMin t2)).data = isoChars (truncMin t2) := rfl
  simp only [String.data_append, hpipe, hiso1, hiso2, List.append_assoc,
    List.cons_append, List.nil_append] at hd
  obtain ⟨hs, hd2⟩ := split_at_sep s1.data s2.data _ _ hs1 hs2 hd
  obtain ⟨hm, hd3⟩ := split_at_sep m1.data m2.data _ _ hm1 hm2 hd2
  refine ⟨string_data_inj s1 s2 hs, string_data_inj m1 m2 hm, ?_⟩
  exact isoChars_inj_minute (truncMin t1) (truncMin t2)
    (truncMin_mod t1) (truncMin_mod t2)
    (truncMin_bounds t1 hv1) (truncMin_bounds t2 hv2) hd3

/-- C8: `build_alert_id` is the 24-hex-character SHA-256 prefix of the
pipe-joined preimage `source|summary|isoformat(minute-truncated timestamp)`,
hence a deterministic function of `(source, summary, timestamp truncated to
the minute)`; and, provided source and summary contain no `|` separator and
the timestamps are datetime-representable, calls differing in source, summary
or truncated-minute timestamp have different preimages, so their ids differ
up to collision of the 24-hex-character SHA-256 prefix. -/
theorem C8_alert_id (s1 m1 s2 m2 : String) (t1 t2 : DT)
    (hs1 : Char.ofNat 124 ∉ s1.data) (hm1 : Char.ofNat 124 ∉ m1.data)
    (hs2 : Char.ofNat 124 ∉ s2.data) (hm2 : Char.ofNat 124 ∉ m2.data)
    (hv1 : validDT t1) (hv2 : validDT t2) :
    build_alert_id s1 m1 t1 = (sha256hex (rawId s1 m1 t1)).take 24 ∧
    (s1 = s2 → m1 = m2 → truncMin t1 = truncMin t2 →
      build_alert_id s1 m1 t1 = build_alert_id s2 m2 t2) ∧
    (rawId s1 m1 t1 = rawId s2 m2 t2 →
      s1 = s2 ∧ m1 = m2 ∧ truncMin t1 = truncMin t2) := by
  refine ⟨rfl, ?_, ?_⟩
  · intro hs hm ht
    subst hs hm
    unfold build_alert_id rawId
    rw [ht]
  · exact rawId_inj s1 m1 s2 m2 t1 t2 hs1 hm1 hs2 hm2 hv1 hv2

theorem C8_alert_id_witness :
    build_alert_id "status_page" "X API degraded" 60000000 =
      (sha256hex (rawId "status_page" "X API degraded" 60000000)).take 24 ∧
    ("status_page" = "status_page" → "X API degraded" = "X API degraded" →
      truncMin 60000000 = truncMin 90000000 →
      build_alert_id "status_page" "X API degraded" 60000000 =
        build_alert_id "status_page" "X API degraded" 90000000) ∧
    (rawId "status_page" "X API degraded" 60000000 =
        rawId "status_page" "X API degraded" 90000000 →
      "status_page" = "status_page" ∧ "X API degraded" = "X API degraded" ∧
      truncMin 60000000 = truncMin 90000000) :=
  C8_alert_id "status_page" "X API degraded" "status_page" "X API degraded"
    60000000 90000000 (by decide) (by decide) (by decide) (by decide)
    (by unfold validDT; decide) (by unfold validDT; decide)

/-- C8 counterexample: without a restriction on the `|` separator, two calls
that differ in both source and summary — `("a|b", "c")` versus `("a", "b|c")`
at the same timestamp — have the identical pipe-joined preimage `a|b|c|…`,
so they return the identical id: the claim's distinctness clause fails, and
not merely by hash collision. -/
theorem C8_alert_id_counterexample :
    ("a|b" ≠ "a" ∧ "c" ≠ "b|c") ∧
    build_alert_id "a|b" "c" 0 = build_alert_id "a" "b|c" 0 := by
  refine ⟨by decide, ?_⟩
  show (sha256hex (rawId "a|b" "c" 0)).take 24 = (sha256hex (rawId "a" "b|c" 0)).take 24
  have hx : (("a|b" ++ "|") ++ "c") ++ "|" = (("a" ++ "|") ++ "b|c") ++ "|" := rfl
  have h : rawId "a|b" "c" 0 = rawId "a" "b|c" 0 :=
    congrArg (fun y => y ++ isoformat (truncMin 0)) hx
  rw [h]

end InfraAlerts
